import Mathlib

/-!
# Verification of the manga_library storage layer

A shallow embedding of `manga_library.py`: the two storage backends
(`DataStore`, the SQLite-backed store, and `CSVDataStore`, the CSV-backed
store), the cover-asset handling in the shared images directory, the
settings load/save routines, and the two migration routines of `App`.

Python strings are modelled as Lean `String` (comparison on code points,
which agrees with Python `str` comparison and with SQLite's BINARY
collation on valid UTF-8).  Machine-level details that the code never
relies on (unicode case folding beyond ASCII, unicode digits in `int()`)
are modelled for the ASCII range the application uses.  The on-disk image
directory is modelled as an association list from path to file bytes.
-/

/-! ## Python primitives: `int(...)`, `str(...)` and ASCII helpers -/

/-- ASCII whitespace, as stripped by Python `int(str)`. -/
def isPySpace (c : Char) : Bool :=
  c.toNat == 32 || c.toNat == 9 || c.toNat == 10 || c.toNat == 13 || c.toNat == 11 || c.toNat == 12

/-- ASCII decimal digit. -/
def isAsciiDigit (c : Char) : Bool :=
  48 ≤ c.toNat && c.toNat ≤ 57

/-- Numeric value of an ASCII digit. -/
def digitVal (c : Char) : Nat := c.toNat - 48

/-- Consume a digit run (Python also allows single underscores between
digits), accumulating the value; `none` models a `ValueError`. -/
def pyDigitsAux : List Char → Nat → Option Nat
  | [], acc => some acc
  | c :: cs, acc =>
    if isAsciiDigit c then pyDigitsAux cs (10 * acc + digitVal c)
    else if c = '_' then
      match cs with
      | [] => none
      | d :: ds => if isAsciiDigit d then pyDigitsAux ds (10 * acc + digitVal d) else none
    else none

/-- Strip leading and trailing whitespace, as `int()` does. -/
def stripPySpaces (cs : List Char) : List Char :=
  ((cs.dropWhile isPySpace).reverse.dropWhile isPySpace).reverse

/-- Python `int(s)` on a string: strip whitespace, optional sign, digit
run; `none` models the `ValueError` raised on anything else. -/
def pyInt (s : String) : Option Int :=
  match stripPySpaces s.toList with
  | [] => none
  | c :: rest =>
    if c = '-' then
      match rest with
      | [] => none
      | d :: _ =>
        if isAsciiDigit d then (pyDigitsAux rest 0).map (fun n : Nat => -(n : Int)) else none
    else if c = '+' then
      match rest with
      | [] => none
      | d :: _ =>
        if isAsciiDigit d then (pyDigitsAux rest 0).map (fun n : Nat => (n : Int)) else none
    else if isAsciiDigit c then (pyDigitsAux (c :: rest) 0).map (fun n : Nat => (n : Int)) else none

/-- Decimal digits of a natural number, most significant first, prepended
to `acc`.  Fuel-structured so that the kernel can evaluate it; `natStr`
always supplies enough fuel. -/
def natDigitsAux : Nat → Nat → List Char → List Char
  | 0, _, acc => acc
  | fuel + 1, n, acc =>
    let acc2 := Char.ofNat (48 + n % 10) :: acc
    if n < 10 then acc2 else natDigitsAux fuel (n / 10) acc2

/-- Python `str(n)` for a natural number. -/
def natStr (n : Nat) : String := String.mk (natDigitsAux (n + 1) n [])

/-- Python `str(i)` for an `int`. -/
def pyStr (i : Int) : String :=
  match i with
  | Int.ofNat n => natStr n
  | Int.negSucc n => String.mk ('-' :: natDigitsAux (n + 2) (n + 1) [])

/-- Python `str.lower()` (ASCII range, which is all the code compares). -/
def pyLower (s : String) : String := String.mk (s.toList.map Char.toLower)

/-- Python truthiness of an optional string (SQLite NULL or text). -/
def pyTruthy : Option String → Bool
  | none => false
  | some s => !(s == "")

/-! ## Lexicographic string order (code points)

Python `<=` on `str` and SQLite's BINARY collation both compare this way
on valid UTF-8. -/

/-- Lexicographic comparison of character lists by code point. -/
def listCharLe : List Char → List Char → Bool
  | [], _ => true
  | _ :: _, [] => false
  | a :: as, b :: bs =>
    if a.toNat < b.toNat then true
    else if b.toNat < a.toNat then false
    else listCharLe as bs

/-- String comparison by code points. -/
def strLe (a b : String) : Bool := listCharLe a.toList b.toList

/-- Case-insensitive title comparison: the CSV backend's sort key
`x[1].lower() if x[1] else ''` (empty string lowers to itself). -/
def ciTitleLe (a b : String) : Bool := strLe (pyLower a) (pyLower b)

/-! ## A stable insertion sort (models Python `list.sort(key=...)` and the
SQL `ORDER BY` clause) -/

/-- Insert `a` into `l`, before the first element not below it. -/
def insertBy {α : Type} (le : α → α → Bool) (a : α) : List α → List α
  | [] => [a]
  | b :: l => if le a b then a :: b :: l else b :: insertBy le a l

/-- Stable insertion sort by a boolean comparison. -/
def sortBy {α : Type} (le : α → α → Bool) : List α → List α
  | [] => []
  | a :: l => insertBy le a (sortBy le l)

/-- Adjacent-sortedness of a list under a boolean comparison. -/
def sortedA {α : Type} (le : α → α → Bool) : List α → Bool
  | [] => true
  | [_] => true
  | a :: b :: l => le a b && sortedA le (b :: l)

/-! ## Paths and the image directory

`IMAGES_DIR = Path.home() / '.manga_library_images'` is shared by both
backends.  `Path.suffix` follows CPython: the extension of the final path
component, when the last dot is neither first nor last in the name. -/

/-- The user's home directory (abstract). -/
def homeDir : String := "~"

/-- The shared cover-image directory `IMAGES_DIR`. -/
def imagesDir : String := homeDir ++ "/.manga_library_images"

/-- Split a character list at every slash. -/
def splitSlash : List Char → List (List Char)
  | [] => [[]]
  | c :: t =>
    let r := splitSlash t
    if c = '/' then [] :: r
    else
      match r with
      | h :: t2 => (c :: h) :: t2
      | [] => [[c]]

/-- `Path(p).name`: the last nonempty path component. -/
def pathName (p : String) : String :=
  String.mk (((splitSlash p.toList).filter (fun s => !s.isEmpty)).getLastD [])

/-- Index of the last occurrence of `c`. -/
def rfindIdx (c : Char) : List Char → Option Nat
  | [] => none
  | a :: t =>
    match rfindIdx c t with
    | some i => some (i + 1)
    | none => if a = c then some 0 else none

/-- `Path(p).suffix`: per CPython, `name[i:]` for the last dot index `i`
when `0 < i < len(name) - 1`, else the empty string. -/
def pathSuffix (p : String) : String :=
  let name := (pathName p).toList
  match rfindIdx '.' name with
  | none => ""
  | some i => if 0 < i ∧ i + 1 < name.length then String.mk (name.drop i) else ""

/-! ## The on-disk image store -/

/-- The image directory contents: path to file bytes. -/
abbrev FileSys := List (String × List Nat)

/-- Read a file's bytes. -/
def fsGet (fs : FileSys) (p : String) : Option (List Nat) :=
  (fs.find? (fun e => e.1 == p)).map (fun e => e.2)

/-- Write a file (create or overwrite). -/
def fsSet (fs : FileSys) (p : String) (v : List Nat) : FileSys :=
  (p, v) :: fs.filter (fun e => !(e.1 == p))

/-- `shutil.copy(src, dest)`: `none` models the exception raised when the
source and destination are the same file (`SameFileError`) or the source
is missing. -/
def shutilCopy (fs : FileSys) (src dest : String) : Option FileSys :=
  if src = dest then none
  else
    match fsGet fs src with
    | some bytes => some (fsSet fs dest bytes)
    | none => none

/-! ## Backend A: `DataStore` (SQLite)

Rows of the `books` and `wishlist` tables.  `cover` is a nullable TEXT
column, so it is an `Option String` here. -/

/-- A row of the SQLite `books` table. -/
structure SBook where
  id : Int
  title : String
  author : String
  year : String
  notes : String
  cover : Option String
deriving DecidableEq, Repr

/-- A row of the SQLite `wishlist` table. -/
structure SWish where
  id : Int
  title : String
  notes : String
  cover : Option String
deriving DecidableEq, Repr

/-- The SQLite database state. -/
structure DataStore where
  books : List SBook
  wishlist : List SWish
deriving DecidableEq, Repr

/-- SQLite `INTEGER PRIMARY KEY` rowid allocation: one more than the
largest rowid in the table, `1` for an empty table.  (All ids the
application creates are positive.) -/
def nextRowid (ids : List Int) : Int := ids.foldl max 0 + 1

/-- `DataStore.add_book`: INSERT with `cover = NULL`, returns
`lastrowid`.  No validation of any field is performed. -/
def DataStore.add_book (st : DataStore) (title author year notes : String) :
    Int × DataStore :=
  let nid := nextRowid (st.books.map SBook.id)
  (nid, { st with books := st.books ++ [⟨nid, title, author, year, notes, none⟩] })

/-- `DataStore.add_wishlist`: INSERT with `cover = NULL`. -/
def DataStore.add_wishlist (st : DataStore) (title notes : String) :
    Int × DataStore :=
  let nid := nextRowid (st.wishlist.map SWish.id)
  (nid, { st with wishlist := st.wishlist ++ [⟨nid, title, notes, none⟩] })

/-- `DataStore.list_books`: `SELECT ... ORDER BY title` under the BINARY
collation (byte order of the UTF-8 encoding = code-point order). -/
def DataStore.list_books (st : DataStore) : List SBook :=
  sortBy (fun a b => strLe a.title b.title) st.books

/-- `DataStore.list_wishlist`: `SELECT ... ORDER BY title`. -/
def DataStore.list_wishlist (st : DataStore) : List SWish :=
  sortBy (fun a b => strLe a.title b.title) st.wishlist

/-- `DataStore.delete_book`: `DELETE FROM books WHERE id=?`.  The method
performs no image-file operation, so the file system passes through. -/
def DataStore.delete_book (st : DataStore) (fs : FileSys) (book_id : Int) :
    DataStore × FileSys :=
  ({ st with books := st.books.filter (fun b => !(b.id == book_id)) }, fs)

/-- `DataStore.delete_wishlist`: `DELETE FROM wishlist WHERE id=?`; no
image-file operation. -/
def DataStore.delete_wishlist (st : DataStore) (fs : FileSys) (wi_id : Int) :
    DataStore × FileSys :=
  ({ st with wishlist := st.wishlist.filter (fun w => !(w.id == wi_id)) }, fs)

/-- `DataStore.move_wishlist_to_books`: look up the wishlist row, INSERT
a book carrying over title/notes and the *same* `cover` path string, then
DELETE the wishlist row.  The method performs no file operation: the
cover asset is not copied to a book-named file. -/
def DataStore.move_wishlist_to_books (st : DataStore) (wi_id : Int)
    (author year : String) : Bool × DataStore :=
  match st.wishlist.find? (fun w => w.id == wi_id) with
  | none => (false, st)
  | some w =>
    let nid := nextRowid (st.books.map SBook.id)
    (true,
      { st with
        books := st.books ++ [⟨nid, w.title, author, year, w.notes, w.cover⟩],
        wishlist := st.wishlist.filter (fun x => !(x.id == wi_id)) })

/-- `DataStore.set_book_cover`: destination `IMAGES_DIR/book_{id}{ext}`.
With Pillow available and resizing enabled the image is re-encoded by the
image collaborator (`encode`; `none` models a transcode failure, which
falls back to a verbatim `shutil.copy`); otherwise it is copied
verbatim.  A failing fallback copy raises (`none` result); on success the
row's `cover` is updated to the destination path. -/
def DataStore.set_book_cover (hasPil resize : Bool)
    (encode : List Nat → Option (List Nat)) (st : DataStore) (fs : FileSys)
    (book_id : Int) (src_path : String) : Option (DataStore × FileSys) :=
  if src_path = "" then some (st, fs)
  else if (fsGet fs src_path).isNone then some (st, fs)
  else
    let ext := pathSuffix src_path
    let dest := imagesDir ++ "/book_" ++ pyStr book_id ++ ext
    let attempt : Option FileSys :=
      if hasPil && resize then
        match fsGet fs src_path with
        | some bytes =>
          match encode bytes with
          | some outBytes => some (fsSet fs dest outBytes)
          | none => none
        | none => none
      else shutilCopy fs src_path dest
    let after : Option FileSys :=
      match attempt with
      | some fs2 => some fs2
      | none => shutilCopy fs src_path dest
    match after with
    | none => none
    | some fs2 =>
      some
        ({ st with
            books := st.books.map fun b =>
              if b.id == book_id then { b with cover := some dest } else b },
          fs2)

/-- `DataStore.set_wishlist_cover`: as `set_book_cover` with destination
`IMAGES_DIR/wish_{id}{ext}` and the `wishlist` table updated. -/
def DataStore.set_wishlist_cover (hasPil resize : Bool)
    (encode : List Nat → Option (List Nat)) (st : DataStore) (fs : FileSys)
    (wish_id : Int) (src_path : String) : Option (DataStore × FileSys) :=
  if src_path = "" then some (st, fs)
  else if (fsGet fs src_path).isNone then some (st, fs)
  else
    let ext := pathSuffix src_path
    let dest := imagesDir ++ "/wish_" ++ pyStr wish_id ++ ext
    let attempt : Option FileSys :=
      if hasPil && resize then
        match fsGet fs src_path with
        | some bytes =>
          match encode bytes with
          | some outBytes => some (fsSet fs dest outBytes)
          | none => none
        | none => none
      else shutilCopy fs src_path dest
    let after : Option FileSys :=
      match attempt with
      | some fs2 => some fs2
      | none => shutilCopy fs src_path dest
    match after with
    | none => none
    | some fs2 =>
      some
        ({ st with
            wishlist := st.wishlist.map fun w =>
              if w.id == wish_id then { w with cover := some dest } else w },
          fs2)

/-- The public storage operations the `DataStore` class defines. -/
def DataStore.ops : List String :=
  ["add_book", "list_books", "delete_book", "add_wishlist", "list_wishlist",
   "delete_wishlist", "move_wishlist_to_books", "set_book_cover",
   "set_wishlist_cover", "export_covers", "import_covers", "export_all",
   "import_all"]

/-! ## Backend B: `CSVDataStore` (flat files)

CSV rows keep every field as a string, exactly as on disk.  The private
read/modify/atomic-write cycle is absorbed into pure state passing. -/

/-- A row of `.manga_library_books.csv`. -/
structure CsvBookRow where
  id : String
  title : String
  author : String
  year : String
  notes : String
  cover : String
deriving DecidableEq, Repr

/-- A row of `.manga_library_wishlist.csv`. -/
structure CsvWishRow where
  id : String
  title : String
  notes : String
  cover : String
deriving DecidableEq, Repr

/-- The CSV backend state: the rows of the two files. -/
structure CSVDataStore where
  books : List CsvBookRow
  wishlist : List CsvWishRow
deriving DecidableEq, Repr

/-- `int(r.get('id') or 0)`: an empty (falsy) id counts as `0`; anything
unparseable raises, modelled as `none`. -/
def csvIdNum (idStr : String) : Option Int :=
  if idStr = "" then some 0 else pyInt idStr

/-- `CSVDataStore._next_id` on the id column: scan all rows, keep the
largest parseable id (unparseable ids are skipped by the
`try/except: continue`), and add one. -/
def CSVDataStore.next_id (ids : List String) : Int :=
  (ids.foldl
    (fun maxid s =>
      match csvIdNum s with
      | some rid => if rid > maxid then rid else maxid
      | none => maxid)
    0) + 1

/-- `CSVDataStore.add_book`: append a row with the next id (stringified)
and an empty `cover`.  No validation of any field is performed. -/
def CSVDataStore.add_book (s : CSVDataStore) (title author year notes : String) :
    Int × CSVDataStore :=
  let nid := CSVDataStore.next_id (s.books.map CsvBookRow.id)
  (nid, { s with books := s.books ++ [⟨pyStr nid, title, author, year, notes, ""⟩] })

/-- `CSVDataStore.add_wishlist`: append a row with the next id. -/
def CSVDataStore.add_wishlist (s : CSVDataStore) (title notes : String) :
    Int × CSVDataStore :=
  let nid := CSVDataStore.next_id (s.wishlist.map CsvWishRow.id)
  (nid, { s with wishlist := s.wishlist ++ [⟨pyStr nid, title, notes, ""⟩] })

/-- A parsed book record as `CSVDataStore.list_books` returns it
(`(int(id), title, author, year, notes, cover)`). -/
structure Book where
  id : Int
  title : String
  author : String
  year : String
  notes : String
  cover : String
deriving DecidableEq, Repr

/-- A parsed wishlist record as `CSVDataStore.list_wishlist` returns it. -/
structure WishItem where
  id : Int
  title : String
  notes : String
  cover : String
deriving DecidableEq, Repr

/-- One row of the books file, parsed; `none` when `int(r['id'])`
raises, in which case the row is silently skipped. -/
def rowToBook (r : CsvBookRow) : Option Book :=
  (pyInt r.id).map fun i => ⟨i, r.title, r.author, r.year, r.notes, r.cover⟩

/-- One row of the wishlist file, parsed. -/
def rowToWish (r : CsvWishRow) : Option WishItem :=
  (pyInt r.id).map fun i => ⟨i, r.title, r.notes, r.cover⟩

/-- `CSVDataStore.list_books`: parse all rows, skipping those whose id
does not parse, then stable-sort by the lower-cased title. -/
def CSVDataStore.list_books (s : CSVDataStore) : List Book :=
  sortBy (fun a b => ciTitleLe a.title b.title) (s.books.filterMap rowToBook)

/-- `CSVDataStore.list_wishlist`: parse, skip unparseable ids, sort. -/
def CSVDataStore.list_wishlist (s : CSVDataStore) : List WishItem :=
  sortBy (fun a b => ciTitleLe a.title b.title) (s.wishlist.filterMap rowToWish)

/-- `CSVDataStore.delete_book`: keep the rows whose id string differs
from `str(book_id)`.  No image-file operation is performed. -/
def CSVDataStore.delete_book (s : CSVDataStore) (fs : FileSys) (book_id : Int) :
    CSVDataStore × FileSys :=
  ({ s with books := s.books.filter (fun r => !(r.id == pyStr book_id)) }, fs)

/-- `CSVDataStore.delete_wishlist`: keep the rows whose id string
differs from `str(wi_id)`; no image-file operation. -/
def CSVDataStore.delete_wishlist (s : CSVDataStore) (fs : FileSys) (wi_id : Int) :
    CSVDataStore × FileSys :=
  ({ s with wishlist := s.wishlist.filter (fun r => !(r.id == pyStr wi_id)) }, fs)

/-- `CSVDataStore.set_book_cover`: verbatim `shutil.copy` of the source
into `IMAGES_DIR/book_{id}{ext}` (no Pillow in this backend), then point
every row with matching id at the destination.  The copy is not guarded
by `try`, so its exception propagates (`none`). -/
def CSVDataStore.set_book_cover (s : CSVDataStore) (fs : FileSys)
    (book_id : Int) (src_path : String) : Option (CSVDataStore × FileSys) :=
  if src_path = "" then some (s, fs)
  else if (fsGet fs src_path).isNone then some (s, fs)
  else
    let ext := pathSuffix src_path
    let dest := imagesDir ++ "/book_" ++ pyStr book_id ++ ext
    match shutilCopy fs src_path dest with
    | none => none
    | some fs2 =>
      some
        ({ s with
            books := s.books.map fun r =>
              if r.id == pyStr book_id then { r with cover := dest } else r },
          fs2)

/-- `CSVDataStore.move_wishlist_to_books`: find the wishlist row; add a
book with its title/notes; when the row has a cover whose file exists,
copy it via `set_book_cover` (exceptions swallowed by `except: pass`);
finally drop the wishlist row.  Returns `False` only when the id is
absent. -/
def CSVDataStore.move_wishlist_to_books (s : CSVDataStore) (fs : FileSys)
    (wi_id : Int) (author year : String) : Bool × CSVDataStore × FileSys :=
  match s.wishlist.find? (fun r => r.id == pyStr wi_id) with
  | none => (false, s, fs)
  | some m =>
    let res := s.add_book m.title author year m.notes
    let s2fs2 : CSVDataStore × FileSys :=
      if m.cover = "" then (res.2, fs)
      else if (fsGet fs m.cover).isSome then
        match res.2.set_book_cover fs res.1 m.cover with
        | some p => p
        | none => (res.2, fs)
      else (res.2, fs)
    (true,
      { s2fs2.1 with
        wishlist := s2fs2.1.wishlist.filter (fun r => !(r.id == pyStr wi_id)) },
      s2fs2.2)

/-- The public storage operations the `CSVDataStore` class defines.
There is no `set_wishlist_cover`, `export_covers`, `import_covers`,
`export_all` or `import_all` method on this class. -/
def CSVDataStore.ops : List String :=
  ["add_book", "list_books", "delete_book", "set_book_cover", "add_wishlist",
   "list_wishlist", "delete_wishlist", "move_wishlist_to_books"]

/-! ## Migration (`App._migrate_csv_to_sqlite`, `App._migrate_sqlite_to_csv`)

Both directions enumerate the source backend's list output and re-add
each record into the destination; per-record cover failures are swallowed
(`try/except: pass`). -/

/-- `App._migrate_csv_to_sqlite`: copy every listed CSV book and wishlist
row into the SQLite store; non-empty covers are re-set through the SQLite
cover setters using the existing cover file as source. -/
def migrate_csv_to_sqlite (hasPil resize : Bool)
    (encode : List Nat → Option (List Nat)) (src : CSVDataStore)
    (db : DataStore) (fs : FileSys) : DataStore × FileSys :=
  let afterBooks :=
    src.list_books.foldl
      (fun acc b =>
        let r := acc.1.add_book b.title b.author b.year b.notes
        if b.cover = "" then (r.2, acc.2)
        else
          match DataStore.set_book_cover hasPil resize encode r.2 acc.2 r.1 b.cover with
          | some p => p
          | none => (r.2, acc.2))
      (db, fs)
  src.list_wishlist.foldl
    (fun acc w =>
      let r := acc.1.add_wishlist w.title w.notes
      if w.cover = "" then (r.2, acc.2)
      else
        match DataStore.set_wishlist_cover hasPil resize encode r.2 acc.2 r.1 w.cover with
        | some p => p
        | none => (r.2, acc.2))
    afterBooks

/-- `App._migrate_sqlite_to_csv`: copy every listed SQLite book and
wishlist row into the CSV store.  Note the source: for wishlist rows the
code calls `csvs.set_book_cover(nid, cover)` — the *book* cover setter —
because `CSVDataStore` has no wishlist cover setter. -/
def migrate_sqlite_to_csv (db : DataStore) (csvs : CSVDataStore)
    (fs : FileSys) : CSVDataStore × FileSys :=
  let afterBooks :=
    db.list_books.foldl
      (fun acc b =>
        let r := acc.1.add_book b.title b.author b.year b.notes
        if pyTruthy b.cover then
          match CSVDataStore.set_book_cover r.2 acc.2 r.1 (b.cover.getD "") with
          | some p => p
          | none => (r.2, acc.2)
        else (r.2, acc.2))
      (csvs, fs)
  db.list_wishlist.foldl
    (fun acc w =>
      let r := acc.1.add_wishlist w.title w.notes
      if pyTruthy w.cover then
        match CSVDataStore.set_book_cover r.2 acc.2 r.1 (w.cover.getD "") with
        | some p => p
        | none => (r.2, acc.2)
      else (r.2, acc.2))
    afterBooks

/-! ## Settings (`load_config` / `save_config`)

The settings file holds a JSON object; the scalar fields below round-trip
through `json.dump`/`json.load` verbatim, so serialization is abstracted:
a file is absent, malformed, or holds a (possibly keyed-down) settings
object. -/

/-- The settings record, fields in the order of the `default` dict. -/
structure Config where
  resize_enabled : Bool
  max_width : Int
  max_height : Int
  preview_width : Int
  preview_height : Int
  quality : Int
  optimize : Bool
deriving DecidableEq, Repr

/-- A JSON settings object: any subset of the known keys may be present
(`dict.update` merges whatever keys the file holds over the defaults). -/
structure CfgPatch where
  resize_enabled : Option Bool
  max_width : Option Int
  max_height : Option Int
  preview_width : Option Int
  preview_height : Option Int
  quality : Option Int
  optimize : Option Bool
deriving DecidableEq, Repr

/-- `default.update(cfg)`. -/
def cfgUpdate (d : Config) (p : CfgPatch) : Config :=
  ⟨p.resize_enabled.getD d.resize_enabled, p.max_width.getD d.max_width,
   p.max_height.getD d.max_height, p.preview_width.getD d.preview_width,
   p.preview_height.getD d.preview_height, p.quality.getD d.quality,
   p.optimize.getD d.optimize⟩

/-- The states the settings file can be in. -/
inductive ConfigFile where
  | absent : ConfigFile
  | malformed : ConfigFile
  | stored : CfgPatch → ConfigFile
deriving DecidableEq, Repr

/-- The built-in `default` settings dict of `load_config`. -/
def defaultConfig : Config :=
  ⟨true, 800, 1200, 300, 440, 85, true⟩

/-- `load_config`: an absent file leaves the defaults; a `json.load`
failure is swallowed (`except: pass`), leaving the defaults; otherwise
the stored object is merged over the defaults. -/
def load_config : ConfigFile → Config
  | ConfigFile.absent => defaultConfig
  | ConfigFile.malformed => defaultConfig
  | ConfigFile.stored p => cfgUpdate defaultConfig p

/-- All fields of a settings object, as `save_config` serializes the full
dict. -/
def cfgToPatch (c : Config) : CfgPatch :=
  ⟨some c.resize_enabled, some c.max_width, some c.max_height,
   some c.preview_width, some c.preview_height, some c.quality,
   some c.optimize⟩

/-- `save_config`: `json.dump` of the full settings dict (the successful
write; a failing write is swallowed and leaves the file as it was). -/
def save_config (c : Config) : ConfigFile :=
  ConfigFile.stored (cfgToPatch c)


/-- The spec's description of id assignment in the flat-file backend:
"scan all existing ids, take the maximum numeric value (ignoring
unparseable ids)" (with no numeric id the scan yields 0, so the first
assigned id is 1).  Written from the spec's words, to be compared with
`CSVDataStore.next_id` from the source. -/
def specMaxId (ids : List String) : Int :=
  (ids.filterMap pyInt).foldl max 0

/-! ## Concrete stores and files used to instantiate the analysis -/

/-- Two CSV books whose list order (by title) reverses their ids, with
covers at the book-named paths of the shared images directory. -/
def csvC4 : CSVDataStore :=
  ⟨[⟨"2", "Alpha", "", "", "", imagesDir ++ "/book_2.png"⟩,
    ⟨"1", "Zeta", "", "", "", imagesDir ++ "/book_1.png"⟩], []⟩

/-- The cover files of `csvC4`, with distinguishable contents. -/
def fsC4 : FileSys :=
  [(imagesDir ++ "/book_1.png", [1]), (imagesDir ++ "/book_2.png", [2])]

/-- A SQLite store holding one wishlist item with a cover. -/
def dbC3 : DataStore := ⟨[], [⟨1, "W", "", some (imagesDir ++ "/wish_1.png")⟩]⟩

/-- The cover file of `dbC3`. -/
def fsC3 : FileSys := [(imagesDir ++ "/wish_1.png", [9])]

/-- Titles `"a"` and `"B"`: byte order and case-insensitive order
disagree. -/
def stC6 : DataStore := ⟨[⟨1, "a", "", "", "", none⟩, ⟨2, "B", "", "", "", none⟩], []⟩

/-- A SQLite store with one covered wishlist item, for the move analysis. -/
def stC5 : DataStore := ⟨[], [⟨1, "T", "N", some (imagesDir ++ "/wish_1.png")⟩]⟩

/-- A CSV store with one covered wishlist item. -/
def csvC5 : CSVDataStore := ⟨[], [⟨"1", "T", "N", imagesDir ++ "/wish_1.png"⟩]⟩

/-- The cover file of `csvC5`. -/
def fsC5 : FileSys := [(imagesDir ++ "/wish_1.png", [7])]

/-- A SQLite store with one book and one covered wishlist item. -/
def dbW : DataStore :=
  ⟨[⟨1, "Naruto", "Kishimoto", "1999", "", none⟩],
   [⟨1, "Berserk", "", some (imagesDir ++ "/wish_1.png")⟩]⟩

/-- The CSV store holding the same records as `dbW`. -/
def csvW : CSVDataStore :=
  ⟨[⟨"1", "Naruto", "Kishimoto", "1999", "", ""⟩],
   [⟨"1", "Berserk", "", imagesDir ++ "/wish_1.png"⟩]⟩

/-- CSV files with one parseable and one unparseable id each. -/
def sC10 : CSVDataStore :=
  ⟨[⟨"1", "Good", "", "", "", ""⟩, ⟨"x", "Bad", "", "", "", ""⟩],
   [⟨"1", "W", "", ""⟩, ⟨"", "V", "", ""⟩]⟩

/-- One-book stores and a source image, for the delete/cover analysis. -/
def sC9 : CSVDataStore := ⟨[⟨"1", "B", "", "", "", ""⟩], []⟩

/-- The SQLite store holding the same record as `sC9`. -/
def stC9 : DataStore := ⟨[⟨1, "B", "", "", "", none⟩], []⟩

/-- A source image outside the images directory. -/
def fsC9 : FileSys := [(homeDir ++ "/src.png", [5])]

/-- Powers of ten along the digit recursion. -/
def tenPowAux : Nat → Nat → Nat
  | 0, _ => 1
  | fuel + 1, n => if n < 10 then 10 else 10 * tenPowAux fuel (n / 10)

/-! ## The correspondence between the two backends

A CSV store corresponds to a SQLite store when its rows are exactly the
stringified SQLite rows (`str(id)`, and `''` for a NULL cover: this is
how migration and the UI treat the two). -/

/-- A NULL cover reads back as the empty string in CSV. -/
def coverStr : Option String → String
  | none => ""
  | some s => s

/-- The CSV row holding the same data as a SQLite book row. -/
def rowOfBook (b : SBook) : CsvBookRow :=
  ⟨pyStr b.id, b.title, b.author, b.year, b.notes, coverStr b.cover⟩

/-- The CSV row holding the same data as a SQLite wishlist row. -/
def rowOfWish (w : SWish) : CsvWishRow :=
  ⟨pyStr w.id, w.title, w.notes, coverStr w.cover⟩

/-- A SQLite book row projected to the common record shape. -/
def recOfSBook (b : SBook) : Book :=
  ⟨b.id, b.title, b.author, b.year, b.notes, coverStr b.cover⟩

/-- A SQLite wishlist row projected to the common record shape. -/
def recOfSWish (w : SWish) : WishItem :=
  ⟨w.id, w.title, w.notes, coverStr w.cover⟩

/-- The two stores hold the same records. -/
def Corresp (s : CSVDataStore) (st : DataStore) : Prop :=
  s.books = st.books.map rowOfBook ∧ s.wishlist = st.wishlist.map rowOfWish

instance (s : CSVDataStore) (st : DataStore) : Decidable (Corresp s st) :=
  inferInstanceAs (Decidable (_ ∧ _))

/-! ## Lemmas: decimal digits and the `str`/`int` round trip -/

/-- The character of a decimal digit is an ASCII digit with that value. -/
lemma digitChar_spec (n : Nat) :
    isAsciiDigit (Char.ofNat (48 + n % 10)) = true ∧
      digitVal (Char.ofNat (48 + n % 10)) = n % 10 := by
  have h : n % 10 < 10 := Nat.mod_lt _ (by norm_num)
  generalize hk : n % 10 = k at h ⊢
  interval_cases k <;> exact ⟨by decide, by decide⟩

lemma natDigitsAux_cons_ne_nil (fuel : Nat) :
    ∀ (n : Nat) (c : Char) (acc : List Char), natDigitsAux fuel n (c :: acc) ≠ [] := by
  induction fuel with
  | zero => intro n c acc; simp [natDigitsAux]
  | succ f ih =>
    intro n c acc
    simp only [natDigitsAux]
    by_cases h : n < 10
    · simp [h]
    · simp only [if_neg h]
      exact ih (n / 10) _ _

/-- The digit list of `natStr` is nonempty. -/
lemma natStrList_ne_nil (n : Nat) : natDigitsAux (n + 1) n [] ≠ [] := by
  simp only [natDigitsAux]
  by_cases h : n < 10
  · simp [h]
  · simp only [if_neg h]
    exact natDigitsAux_cons_ne_nil n (n / 10) _ _

lemma natDigitsAux_all_digits (fuel : Nat) :
    ∀ (n : Nat) (acc : List Char), (∀ c ∈ acc, isAsciiDigit c = true) →
      ∀ c ∈ natDigitsAux fuel n acc, isAsciiDigit c = true := by
  induction fuel with
  | zero => intro n acc hacc; exact hacc
  | succ f ih =>
    intro n acc hacc c hc
    have hacc2 : ∀ x ∈ Char.ofNat (48 + n % 10) :: acc, isAsciiDigit x = true := by
      intro x hx
      rcases List.mem_cons.mp hx with h | h
      · subst h; exact (digitChar_spec n).1
      · exact hacc x h
    simp only [natDigitsAux] at hc
    by_cases h : n < 10
    · rw [if_pos h] at hc
      exact hacc2 c hc
    · rw [if_neg h] at hc
      exact ih (n / 10) _ hacc2 c hc

lemma pyDigitsAux_nil (a : Nat) : pyDigitsAux [] a = some a := rfl

/-- Consuming one leading digit. -/
lemma pyDigitsAux_cons_digit (c : Char) (cs : List Char) (a : Nat)
    (h : isAsciiDigit c = true) :
    pyDigitsAux (c :: cs) a = pyDigitsAux cs (10 * a + digitVal c) := by
  rw [pyDigitsAux.eq_def]
  simp [h]

/-- Consuming the digits of `n` multiplies the running value by the
matching power of ten and adds `n`. -/
lemma pyDigitsAux_natDigitsAux (fuel : Nat) :
    ∀ (n a : Nat) (acc : List Char), n < fuel →
      pyDigitsAux (natDigitsAux fuel n acc) a
        = pyDigitsAux acc (a * tenPowAux fuel n + n) := by
  induction fuel with
  | zero => intro n a acc hn; omega
  | succ f ih =>
    intro n a acc hn
    simp only [natDigitsAux, tenPowAux]
    have hd := digitChar_spec n
    by_cases h : n < 10
    · rw [if_pos h, if_pos h]
      rw [pyDigitsAux_cons_digit _ _ _ hd.1, hd.2]
      have : 10 * a + n % 10 = a * 10 + n := by
        have h2 : n % 10 = n := Nat.mod_eq_of_lt h
        omega
      rw [this]
    · rw [if_neg h, if_neg h]
      have hfit : n / 10 < f := by omega
      rw [ih (n / 10) a _ hfit]
      rw [pyDigitsAux_cons_digit _ _ _ hd.1, hd.2]
      congr 1
      have h2 : 10 * (n / 10) + n % 10 = n := Nat.div_add_mod n 10
      generalize n / 10 = q at h2 ⊢
      generalize n % 10 = r at h2 ⊢
      generalize tenPowAux f q = T
      rw [← h2]
      ring

/-- Parsing the digit string of `n` yields `n`. -/
lemma pyDigitsAux_natStr (n : Nat) :
    pyDigitsAux (natDigitsAux (n + 1) n []) 0 = some n := by
  rw [pyDigitsAux_natDigitsAux (n + 1) n 0 [] (by omega)]
  simp [pyDigitsAux]

/-! ## Lemmas: whitespace stripping and the round trip `pyInt ∘ pyStr` -/

lemma dropWhile_eq_self_of {p : Char → Bool} {cs : List Char}
    (h : ∀ c ∈ cs, p c = false) : cs.dropWhile p = cs := by
  cases cs with
  | nil => rfl
  | cons a t => simp [List.dropWhile_cons, h a (List.mem_cons_self a t)]

lemma stripPySpaces_eq_self {cs : List Char} (h : ∀ c ∈ cs, isPySpace c = false) :
    stripPySpaces cs = cs := by
  unfold stripPySpaces
  rw [dropWhile_eq_self_of h]
  rw [dropWhile_eq_self_of (fun c hc => h c (List.mem_reverse.mp hc))]
  exact List.reverse_reverse cs

lemma not_space_of_ge33 {c : Char} (h : 33 ≤ c.toNat) : isPySpace c = false := by
  simp only [isPySpace, Bool.or_eq_false_iff, beq_eq_false_iff_ne, ne_eq]
  omega

lemma isAsciiDigit_range {c : Char} (h : isAsciiDigit c = true) :
    48 ≤ c.toNat ∧ c.toNat ≤ 57 := by
  simpa [isAsciiDigit, Bool.and_eq_true, decide_eq_true_eq] using h

lemma digit_not_space {c : Char} (h : isAsciiDigit c = true) : isPySpace c = false :=
  not_space_of_ge33 (by have := isAsciiDigit_range h; omega)

lemma digit_ne_dash {c : Char} (h : isAsciiDigit c = true) : ¬(c = '-') := by
  intro he
  rw [he] at h
  exact absurd h (by decide)

lemma digit_ne_plus {c : Char} (h : isAsciiDigit c = true) : ¬(c = '+') := by
  intro he
  rw [he] at h
  exact absurd h (by decide)

lemma pyInt_natStr (n : Nat) : pyInt (natStr n) = some (n : Int) := by
  have hall : ∀ c ∈ natDigitsAux (n + 1) n [], isAsciiDigit c = true :=
    natDigitsAux_all_digits (n + 1) n [] (by intro c hc; cases hc)
  have hstrip : stripPySpaces (natStr n).toList = natDigitsAux (n + 1) n [] :=
    stripPySpaces_eq_self (fun c hc => digit_not_space (hall c hc))
  rw [pyInt.eq_def, hstrip]
  cases hds : natDigitsAux (n + 1) n [] with
  | nil => exact absurd hds (natStrList_ne_nil n)
  | cons c rest =>
    have hc : isAsciiDigit c = true := hall c (by rw [hds]; exact List.mem_cons_self c rest)
    simp only [hc, eq_self_iff_true, if_true, if_neg (digit_ne_dash hc),
      if_neg (digit_ne_plus hc)]
    rw [← hds, pyDigitsAux_natStr n]
    rfl

/-- Python `int(str(i)) == i`. -/
lemma pyInt_pyStr (i : Int) : pyInt (pyStr i) = some i := by
  cases i with
  | ofNat n => exact pyInt_natStr n
  | negSucc n =>
    have hall : ∀ c ∈ natDigitsAux (n + 2) (n + 1) [], isAsciiDigit c = true :=
      natDigitsAux_all_digits (n + 2) (n + 1) [] (by intro c hc; cases hc)
    have hnospace : ∀ c ∈ '-' :: natDigitsAux (n + 2) (n + 1) [], isPySpace c = false := by
      intro c hc
      rcases List.mem_cons.mp hc with h | h
      · subst h; decide
      · exact digit_not_space (hall c h)
    have hstrip : stripPySpaces (pyStr (Int.negSucc n)).toList
        = '-' :: natDigitsAux (n + 2) (n + 1) [] := stripPySpaces_eq_self hnospace
    rw [pyInt.eq_def, hstrip]
    cases hds : natDigitsAux (n + 2) (n + 1) [] with
    | nil => exact absurd hds (natStrList_ne_nil (n + 1))
    | cons d rest =>
      have hd : isAsciiDigit d = true := hall d (by rw [hds]; exact List.mem_cons_self d rest)
      simp only [eq_self_iff_true, if_true, hd]
      rw [← hds]
      have : natDigitsAux (n + 2) (n + 1) [] = natDigitsAux ((n + 1) + 1) (n + 1) [] := rfl
      rw [this, pyDigitsAux_natStr (n + 1)]
      simp [Int.negSucc_eq]

lemma pyStr_ne_empty (i : Int) : pyStr i ≠ "" := by
  cases i with
  | ofNat n =>
    intro h
    exact natStrList_ne_nil n (congrArg String.data h)
  | negSucc n =>
    intro h
    exact List.cons_ne_nil _ _ (congrArg String.data h)

lemma pyStr_inj {a b : Int} (h : pyStr a = pyStr b) : a = b := by
  have ha := pyInt_pyStr a
  rw [h, pyInt_pyStr b] at ha
  exact (Option.some.injEq _ _).mp ha.symm

/-- `int(str(i) or 0) == i`. -/
lemma csvIdNum_pyStr (i : Int) : csvIdNum (pyStr i) = some i := by
  unfold csvIdNum
  rw [if_neg (pyStr_ne_empty i)]
  exact pyInt_pyStr i

/-! ## Lemmas: maximum folds and id allocation -/

lemma foldl_ifgt_eq_max (l : List Int) : ∀ a : Int,
    l.foldl (fun m v => if v > m then v else m) a = l.foldl max a := by
  induction l with
  | nil => intro a; rfl
  | cons v t ih =>
    intro a
    simp only [List.foldl_cons]
    rw [ih]
    congr 1
    by_cases h : v > a
    · rw [if_pos h, max_eq_right (le_of_lt h)]
    · rw [if_neg h, max_eq_left (not_lt.mp h)]

lemma le_foldl_max (l : List Int) : ∀ a : Int, a ≤ l.foldl max a := by
  induction l with
  | nil => intro a; exact le_refl a
  | cons v t ih => intro a; exact le_trans (le_max_left a v) (ih (max a v))

lemma foldl_max_mem_le (l : List Int) : ∀ (a v : Int), v ∈ l → v ≤ l.foldl max a := by
  induction l with
  | nil => intro a v hv; cases hv
  | cons w t ih =>
    intro a v hv
    rcases List.mem_cons.mp hv with h | h
    · subst h
      exact le_trans (le_max_right a v) (le_foldl_max t _)
    · exact ih _ v h

/-- The `_next_id` scan is a maximum fold over the parseable ids. -/
lemma next_id_fold (l : List String) : ∀ a : Int,
    l.foldl
      (fun m s =>
        match csvIdNum s with
        | some rid => if rid > m then rid else m
        | none => m) a
      = (l.filterMap csvIdNum).foldl (fun m v => if v > m then v else m) a := by
  induction l with
  | nil => intro a; rfl
  | cons s t ih =>
    intro a
    simp only [List.foldl_cons, List.filterMap_cons]
    cases csvIdNum s with
    | none => exact ih a
    | some rid => exact ih _

/-- Every parseable id of a row in the file is strictly below the next
assigned id: ids are never reused. -/
lemma next_id_gt (l : List String) (s : String) (hs : s ∈ l) (v : Int)
    (hv : csvIdNum s = some v) : v < CSVDataStore.next_id l := by
  unfold CSVDataStore.next_id
  rw [next_id_fold, foldl_ifgt_eq_max]
  have hmem : v ∈ l.filterMap csvIdNum := List.mem_filterMap.mpr ⟨s, hs, hv⟩
  have := foldl_max_mem_le (l.filterMap csvIdNum) 0 v hmem
  omega

lemma filterMap_csvIdNum_map_pyStr (ids : List Int) :
    (ids.map pyStr).filterMap csvIdNum = ids := by
  induction ids with
  | nil => rfl
  | cons i t ih => simp [List.filterMap_cons, csvIdNum_pyStr, ih]

/-- On stringified ids the CSV id allocator agrees with the SQLite rowid
allocator. -/
lemma next_id_map_pyStr (ids : List Int) :
    CSVDataStore.next_id (ids.map pyStr) = nextRowid ids := by
  unfold CSVDataStore.next_id nextRowid
  rw [next_id_fold, filterMap_csvIdNum_map_pyStr, foldl_ifgt_eq_max]

/-- A freshly added CSV row can never collide with an existing row id. -/
lemma next_id_fresh (l : List String) (s : String) (hs : s ∈ l) :
    ¬(s = pyStr (CSVDataStore.next_id l)) := by
  intro he
  have hv : csvIdNum s = some (CSVDataStore.next_id l) := by
    rw [he]; exact csvIdNum_pyStr _
  exact absurd (next_id_gt l s hs _ hv) (lt_irrefl _)

/-! ## Lemmas: the file-system model -/

lemma fsGet_fsSet_self (fs : FileSys) (p : String) (v : List Nat) :
    fsGet (fsSet fs p v) p = some v := by
  simp [fsGet, fsSet, List.find?_cons]

lemma find?_filter_ne (fs : FileSys) (p q : String) (h : ¬q = p) :
    (fs.filter (fun e => !(e.1 == p))).find? (fun e => e.1 == q)
      = fs.find? (fun e => e.1 == q) := by
  induction fs with
  | nil => rfl
  | cons e t ih =>
    rw [List.filter_cons, List.find?_cons]
    by_cases hep : e.1 = p
    · have hc1 : (!(e.1 == p)) = false := by rw [hep]; simp
      have hc2 : (e.1 == q) = false := by
        refine beq_eq_false_iff_ne.mpr ?x
        rw [hep]
        exact fun x => h x.symm
      rw [hc1, hc2]
      simp only [Bool.false_eq_true, if_false]
      exact ih
    · have hc1 : (!(e.1 == p)) = true := by
        have hb : (e.1 == p) = false := beq_eq_false_iff_ne.mpr hep
        rw [hb]
        rfl
      rw [hc1]
      simp only [if_true]
      rw [List.find?_cons]
      cases hc2 : (e.1 == q) with
      | true => rfl
      | false => exact ih

lemma fsGet_fsSet_ne (fs : FileSys) (p q : String) (v : List Nat) (h : ¬q = p) :
    fsGet (fsSet fs p v) q = fsGet fs q := by
  unfold fsGet fsSet
  have hpq : ((p, v).1 == q) = false := by
    simp only [beq_eq_false_iff_ne, ne_eq]
    exact fun he => h he.symm
  simp only [List.find?_cons, hpq]
  rw [find?_filter_ne fs p q h]

/-- A successful `shutil.copy` writes the source bytes at the destination. -/
lemma shutilCopy_spec (fs : FileSys) (src dest : String) (fs2 : FileSys)
    (h : shutilCopy fs src dest = some fs2) :
    ¬src = dest ∧ ∃ bytes, fsGet fs src = some bytes ∧ fs2 = fsSet fs dest bytes := by
  unfold shutilCopy at h
  by_cases hsd : src = dest
  · rw [if_pos hsd] at h; cases h
  · rw [if_neg hsd] at h
    cases hb : fsGet fs src with
    | none => rw [hb] at h; cases h
    | some bytes =>
      rw [hb] at h
      exact ⟨hsd, bytes, rfl, (Option.some.injEq _ _).mp h.symm⟩

/-! ## Lemmas: the insertion sort -/

lemma insertBy_perm {α : Type} (le : α → α → Bool) (a : α) (l : List α) :
    List.Perm (insertBy le a l) (a :: l) := by
  induction l with
  | nil => exact List.Perm.refl _
  | cons b t ih =>
    simp only [insertBy]
    by_cases h : le a b = true
    · rw [if_pos h]
    · rw [if_neg h]
      exact List.Perm.trans (List.Perm.cons b ih) (List.Perm.swap a b t)

/-- Sorting permutes the input. -/
lemma sortBy_perm {α : Type} (le : α → α → Bool) (l : List α) :
    List.Perm (sortBy le l) l := by
  induction l with
  | nil => exact List.Perm.refl _
  | cons a t ih =>
    exact List.Perm.trans (insertBy_perm le a (sortBy le t)) (List.Perm.cons a ih)

lemma sortedA_insertBy {α : Type} (le : α → α → Bool)
    (htot : ∀ x y, le x y = true ∨ le y x = true) (a : α) :
    ∀ l : List α, sortedA le l = true → sortedA le (insertBy le a l) = true := by
  intro l
  induction l with
  | nil => intro _; rfl
  | cons b t ih =>
    intro h
    simp only [insertBy]
    by_cases hab : le a b = true
    · rw [if_pos hab]
      show (le a b && sortedA le (b :: t)) = true
      rw [hab, h]
      rfl
    · rw [if_neg hab]
      have hba : le b a = true := (htot a b).resolve_left hab
      cases t with
      | nil =>
        show (le b a && sortedA le [a]) = true
        rw [hba]
        rfl
      | cons c t2 =>
        have hparts : le b c = true ∧ sortedA le (c :: t2) = true := by
          have h2 : (le b c && sortedA le (c :: t2)) = true := h
          exact Bool.and_eq_true_iff.mp h2
        have hins : sortedA le (insertBy le a (c :: t2)) = true := ih hparts.2
        simp only [insertBy] at hins ⊢
        by_cases hac : le a c = true
        · rw [if_pos hac] at hins ⊢
          show (le b a && sortedA le (a :: c :: t2)) = true
          rw [hba, hins]
          rfl
        · rw [if_neg hac] at hins ⊢
          show (le b c && sortedA le (c :: insertBy le a t2)) = true
          rw [hparts.1, hins]
          rfl

/-- Sorting under a total boolean comparison yields an adjacently sorted
list. -/
lemma sortedA_sortBy {α : Type} (le : α → α → Bool)
    (htot : ∀ x y, le x y = true ∨ le y x = true) (l : List α) :
    sortedA le (sortBy le l) = true := by
  induction l with
  | nil => rfl
  | cons a t ih => exact sortedA_insertBy le htot a _ ih

/-- The code-point comparison is total. -/
lemma listCharLe_total (x : List Char) : ∀ y, listCharLe x y = true ∨ listCharLe y x = true := by
  induction x with
  | nil => intro y; left; rfl
  | cons a as ih =>
    intro y
    cases y with
    | nil => right; rfl
    | cons b bs =>
      simp only [listCharLe]
      by_cases h1 : a.toNat < b.toNat
      · left
        rw [if_pos h1]
      · by_cases h2 : b.toNat < a.toNat
        · right
          rw [if_pos h2]
        · rw [if_neg h1, if_neg h2, if_neg h2, if_neg h1]
          exact ih bs

lemma strLe_total (a b : String) : strLe a b = true ∨ strLe b a = true :=
  listCharLe_total a.toList b.toList

lemma ciTitleLe_total (a b : String) : ciTitleLe a b = true ∨ ciTitleLe b a = true :=
  strLe_total (pyLower a) (pyLower b)

/-! ## Lemmas: small list helpers -/

lemma map_eq_self_of {α : Type} (f : α → α) (l : List α)
    (h : ∀ a ∈ l, f a = a) : l.map f = l := by
  induction l with
  | nil => rfl
  | cons a t ih =>
    rw [List.map_cons, h a (List.mem_cons_self a t),
      ih (fun x hx => h x (List.mem_cons_of_mem a hx))]

lemma filterMap_comp_eq_map {α β γ : Type} (g : β → Option γ) (f : α → β)
    (h2 : α → γ) (H : ∀ a, g (f a) = some (h2 a)) (l : List α) :
    (l.map f).filterMap g = l.map h2 := by
  induction l with
  | nil => rfl
  | cons a t ih => simp [List.filterMap_cons, H a, ih]

lemma filter_map_comm {α β : Type} (f : α → β) (p : β → Bool) (l : List α) :
    (l.map f).filter p = (l.filter (fun a => p (f a))).map f := by
  induction l with
  | nil => rfl
  | cons a t ih =>
    rw [List.map_cons, List.filter_cons, List.filter_cons]
    cases h : p (f a) with
    | true => rw [if_pos rfl, if_pos rfl, List.map_cons, ih]
    | false => rw [if_neg Bool.false_ne_true, if_neg Bool.false_ne_true]; exact ih

lemma filter_congr_of {α : Type} (p q : α → Bool) (l : List α)
    (h : ∀ a ∈ l, p a = q a) : l.filter p = l.filter q := by
  induction l with
  | nil => rfl
  | cons a t ih =>
    rw [List.filter_cons, List.filter_cons, h a (List.mem_cons_self a t),
      ih (fun x hx => h x (List.mem_cons_of_mem a hx))]

lemma rowToBook_rowOfBook (b : SBook) :
    rowToBook (rowOfBook b) = some (recOfSBook b) := by
  unfold rowToBook rowOfBook recOfSBook
  rw [pyInt_pyStr b.id]
  rfl

lemma rowToWish_rowOfWish (w : SWish) :
    rowToWish (rowOfWish w) = some (recOfSWish w) := by
  unfold rowToWish rowOfWish recOfSWish
  rw [pyInt_pyStr w.id]
  rfl

lemma pyStr_beq (a b : Int) : (pyStr a == pyStr b) = (a == b) := by
  by_cases h : a = b
  · subst h
    simp
  · have h2 : ¬(pyStr a = pyStr b) := fun he => h (pyStr_inj he)
    simp [h, h2]

lemma corresp_next_book_id (s : CSVDataStore) (st : DataStore)
    (hb : s.books = st.books.map rowOfBook) :
    CSVDataStore.next_id (s.books.map CsvBookRow.id)
      = nextRowid (st.books.map SBook.id) := by
  rw [hb, List.map_map]
  have h1 : (CsvBookRow.id ∘ rowOfBook) = pyStr ∘ SBook.id := rfl
  rw [h1, ← List.map_map]
  exact next_id_map_pyStr _

lemma corresp_next_wish_id (s : CSVDataStore) (st : DataStore)
    (hw : s.wishlist = st.wishlist.map rowOfWish) :
    CSVDataStore.next_id (s.wishlist.map CsvWishRow.id)
      = nextRowid (st.wishlist.map SWish.id) := by
  rw [hw, List.map_map]
  have h1 : (CsvWishRow.id ∘ rowOfWish) = pyStr ∘ SWish.id := rfl
  rw [h1, ← List.map_map]
  exact next_id_map_pyStr _

lemma corresp_add_book (s : CSVDataStore) (st : DataStore) (t a y n : String)
    (h : Corresp s st) :
    (s.add_book t a y n).1 = (st.add_book t a y n).1 ∧
      Corresp (s.add_book t a y n).2 (st.add_book t a y n).2 := by
  obtain ⟨hb, hw⟩ := h
  have hid := corresp_next_book_id s st hb
  refine ⟨hid, ?x, hw⟩
  simp only [CSVDataStore.add_book, DataStore.add_book]
  rw [hid, hb, List.map_append]
  rfl

lemma corresp_add_wishlist (s : CSVDataStore) (st : DataStore) (t n : String)
    (h : Corresp s st) :
    (s.add_wishlist t n).1 = (st.add_wishlist t n).1 ∧
      Corresp (s.add_wishlist t n).2 (st.add_wishlist t n).2 := by
  obtain ⟨hb, hw⟩ := h
  have hid := corresp_next_wish_id s st hw
  refine ⟨hid, hb, ?x⟩
  simp only [CSVDataStore.add_wishlist, DataStore.add_wishlist]
  rw [hid, hw, List.map_append]
  rfl

lemma corresp_delete_book (s : CSVDataStore) (st : DataStore) (fs : FileSys)
    (k : Int) (h : Corresp s st) :
    Corresp (s.delete_book fs k).1 (st.delete_book fs k).1 := by
  obtain ⟨hb, hw⟩ := h
  refine ⟨?x, hw⟩
  show s.books.filter (fun r => !(r.id == pyStr k))
      = (st.books.filter (fun b => !(b.id == k))).map rowOfBook
  rw [hb, filter_map_comm]
  congr 1
  apply filter_congr_of
  intro b _
  show (!(pyStr b.id == pyStr k)) = (!(b.id == k))
  rw [pyStr_beq]

lemma corresp_delete_wishlist (s : CSVDataStore) (st : DataStore) (fs : FileSys)
    (k : Int) (h : Corresp s st) :
    Corresp (s.delete_wishlist fs k).1 (st.delete_wishlist fs k).1 := by
  obtain ⟨hb, hw⟩ := h
  refine ⟨hb, ?x⟩
  show s.wishlist.filter (fun r => !(r.id == pyStr k))
      = (st.wishlist.filter (fun w => !(w.id == k))).map rowOfWish
  rw [hw, filter_map_comm]
  congr 1
  apply filter_congr_of
  intro w _
  show (!(pyStr w.id == pyStr k)) = (!(w.id == k))
  rw [pyStr_beq]

lemma corresp_list_books (s : CSVDataStore) (st : DataStore) (h : Corresp s st) :
    List.Perm s.list_books (st.list_books.map recOfSBook) := by
  obtain ⟨hb, _⟩ := h
  unfold CSVDataStore.list_books DataStore.list_books
  rw [hb, filterMap_comp_eq_map rowToBook rowOfBook recOfSBook rowToBook_rowOfBook]
  refine List.Perm.trans (sortBy_perm _ _) ?x
  exact (List.Perm.map recOfSBook (sortBy_perm _ st.books)).symm

lemma corresp_list_wishlist (s : CSVDataStore) (st : DataStore) (h : Corresp s st) :
    List.Perm s.list_wishlist (st.list_wishlist.map recOfSWish) := by
  obtain ⟨_, hw⟩ := h
  unfold CSVDataStore.list_wishlist DataStore.list_wishlist
  rw [hw, filterMap_comp_eq_map rowToWish rowOfWish recOfSWish rowToWish_rowOfWish]
  refine List.Perm.trans (sortBy_perm _ _) ?x
  exact (List.Perm.map recOfSWish (sortBy_perm _ st.wishlist)).symm

/-! ## Lemmas: more sortedness and allocation facts -/

lemma sortedA_cons2 {α : Type} (le : α → α → Bool) (a b : α) (l : List α) :
    sortedA le (a :: b :: l) = (le a b && sortedA le (b :: l)) := rfl

lemma sortedA_map {α β : Type} (f : α → β) (le : β → β → Bool) :
    ∀ l : List α, sortedA le (l.map f) = sortedA (fun x y => le (f x) (f y)) l := by
  intro l
  induction l with
  | nil => rfl
  | cons a t ih =>
    cases t with
    | nil => rfl
    | cons b t2 =>
      rw [List.map_cons, List.map_cons, sortedA_cons2, ← List.map_cons f b t2,
        ih, sortedA_cons2]

lemma nextRowid_gt (ids : List Int) (v : Int) (hv : v ∈ ids) : v < nextRowid ids := by
  unfold nextRowid
  have := foldl_max_mem_le ids 0 v hv
  omega

lemma foldl_max_zero_skip (l : List Int) : ∀ a : Int, 0 ≤ a →
    (0 :: l).foldl max a = l.foldl max a := by
  intro a ha
  rw [List.foldl_cons, max_eq_left ha]

/-- Inserting extra zeroes (the `or 0` reading of blank ids) does not
change a maximum fold that starts at zero. -/
lemma foldl_max_csvIdNum_eq (l : List String) : ∀ a : Int, 0 ≤ a →
    (l.filterMap csvIdNum).foldl max a = (l.filterMap pyInt).foldl max a := by
  induction l with
  | nil => intro a _; rfl
  | cons s t ih =>
    intro a ha
    by_cases hs : s = ""
    · subst hs
      rw [List.filterMap_cons, List.filterMap_cons]
      have h1 : csvIdNum "" = some 0 := rfl
      have h2 : pyInt "" = none := rfl
      rw [h1, h2, List.foldl_cons, max_eq_left ha]
      exact ih a ha
    · have h1 : csvIdNum s = pyInt s := by
        unfold csvIdNum
        rw [if_neg hs]
      rw [List.filterMap_cons, List.filterMap_cons, h1]
      cases hp : pyInt s with
      | none => exact ih a ha
      | some v =>
        rw [List.foldl_cons, List.foldl_cons]
        exact ih (max a v) (le_trans ha (le_max_left a v))

/-- The source's id scan computes exactly the spec's "max numeric id,
ignoring unparseable ids" plus one. -/
lemma next_id_eq_specMaxId (l : List String) :
    CSVDataStore.next_id l = specMaxId l + 1 := by
  unfold CSVDataStore.next_id specMaxId
  rw [next_id_fold, foldl_ifgt_eq_max, foldl_max_csvIdNum_eq l 0 (le_refl 0)]

lemma mem_filter_not_id_csv (rows : List CsvWishRow) (k : String) (x : CsvWishRow)
    (hx : x ∈ rows.filter (fun r => !(r.id == k))) : ¬(x.id = k) := by
  have h2 := (List.mem_filter.mp hx).2
  intro he
  rw [he] at h2
  simp at h2

lemma mem_filter_not_id_sql (rows : List SWish) (k : Int) (x : SWish)
    (hx : x ∈ rows.filter (fun r => !(r.id == k))) : ¬(x.id = k) := by
  have h2 := (List.mem_filter.mp hx).2
  intro he
  rw [he] at h2
  simp at h2

lemma mem_filter_keep_sql (rows : List SWish) (k : Int) (x : SWish)
    (hx : x ∈ rows) (hne : ¬(x.id = k)) :
    x ∈ rows.filter (fun r => !(r.id == k)) := by
  refine List.mem_filter.mpr ⟨hx, ?x⟩
  have : (x.id == k) = false := beq_eq_false_iff_ne.mpr hne
  rw [this]
  rfl

/-- Updating covers for a fresh id touches no existing row. -/
lemma map_cover_update_fresh (rows : List CsvBookRow) (nid : Int) (dest : String)
    (hfresh : ∀ r ∈ rows, ¬(r.id = pyStr nid)) :
    (rows.map fun r => if r.id == pyStr nid then { r with cover := dest } else r)
      = rows := by
  apply map_eq_self_of
  intro r hr
  have hb : (r.id == pyStr nid) = false := beq_eq_false_iff_ne.mpr (hfresh r hr)
  rw [hb, if_neg Bool.false_ne_true]

/-! ## Lemmas: cover setting -/

/-- A successful CSV cover set: verbatim copy to the book-named
destination and a cover update of the matching rows. -/
lemma csv_set_book_cover_eq (s : CSVDataStore) (fs : FileSys) (bid : Int)
    (src : String) (bytes : List Nat)
    (hsrc : ¬src = "")
    (hget : fsGet fs src = some bytes)
    (hne : ¬src = imagesDir ++ "/book_" ++ pyStr bid ++ pathSuffix src) :
    s.set_book_cover fs bid src
      = some
          ({ s with
              books := s.books.map fun r =>
                if r.id == pyStr bid then
                  { r with cover := imagesDir ++ "/book_" ++ pyStr bid ++ pathSuffix src }
                else r },
            fsSet fs (imagesDir ++ "/book_" ++ pyStr bid ++ pathSuffix src) bytes) := by
  unfold CSVDataStore.set_book_cover
  rw [if_neg hsrc]
  have hisnone : (fsGet fs src).isNone = false := by
    rw [hget]
    rfl
  rw [if_neg (by rw [hisnone]; exact Bool.false_ne_true)]
  dsimp only
  unfold shutilCopy
  rw [if_neg hne, hget]

/-- A successful SQLite cover set leaves a file at the book-named
destination (either the re-encoded image or the verbatim copy). -/
lemma sqlite_set_book_cover_creates (hasPil resize : Bool)
    (encode : List Nat → Option (List Nat)) (st : DataStore) (fs : FileSys)
    (bid : Int) (src : String) (st2 : DataStore) (fs2 : FileSys)
    (hsrc : ¬src = "")
    (h : DataStore.set_book_cover hasPil resize encode st fs bid src = some (st2, fs2))
    (hex : ¬fsGet fs src = none) :
    ∃ v, fs2 = fsSet fs (imagesDir ++ "/book_" ++ pyStr bid ++ pathSuffix src) v := by
  unfold DataStore.set_book_cover at h
  rw [if_neg hsrc] at h
  have hisnone : (fsGet fs src).isNone = false := by
    cases hv : fsGet fs src with
    | none => exact absurd hv hex
    | some b => rfl
  rw [if_neg (by rw [hisnone]; exact Bool.false_ne_true)] at h
  dsimp only at h
  by_cases hpm : (hasPil && resize) = true
  · rw [if_pos hpm] at h
    cases hv : fsGet fs src with
    | none => exact absurd hv hex
    | some bytes =>
      rw [hv] at h
      dsimp only at h
      cases he : encode bytes with
      | some out =>
        rw [he] at h
        dsimp only at h
        have hp := (Option.some.injEq _ _).mp h
        have h2 : fsSet fs (imagesDir ++ "/book_" ++ pyStr bid ++ pathSuffix src) out = fs2 :=
          congrArg Prod.snd hp
        exact ⟨out, h2.symm⟩
      | none =>
        rw [he] at h
        dsimp only at h
        cases hcp : shutilCopy fs src (imagesDir ++ "/book_" ++ pyStr bid ++ pathSuffix src) with
        | none => rw [hcp] at h; cases h
        | some fs3 =>
          rw [hcp] at h
          dsimp only at h
          obtain ⟨hnsd, b2, hb2, hfs3⟩ := shutilCopy_spec fs src _ fs3 hcp
          have hp := (Option.some.injEq _ _).mp h
          have h2 : fs3 = fs2 := congrArg Prod.snd hp
          exact ⟨b2, by rw [← h2, hfs3]⟩
  · rw [if_neg hpm] at h
    cases hcp : shutilCopy fs src (imagesDir ++ "/book_" ++ pyStr bid ++ pathSuffix src) with
    | none => rw [hcp] at h; cases h
    | some fs3 =>
      rw [hcp] at h
      dsimp only at h
      obtain ⟨hnsd, b2, hb2, hfs3⟩ := shutilCopy_spec fs src _ fs3 hcp
      have hp := (Option.some.injEq _ _).mp h
      have h2 : fs3 = fs2 := congrArg Prod.snd hp
      exact ⟨b2, by rw [← h2, hfs3]⟩

/-! ## Lemmas: list output characterization -/

lemma filterMap_length_filter {α β : Type} (g : α → Option β) (l : List α) :
    (l.filterMap g).length = (l.filter (fun a => (g a).isSome)).length := by
  induction l with
  | nil => rfl
  | cons a t ih =>
    rw [List.filterMap_cons, List.filter_cons]
    cases hg : g a with
    | none => simp [hg, ih]
    | some b => simp [hg, ih]

lemma mem_list_books_origin (s : CSVDataStore) (b : Book) (hb : b ∈ s.list_books) :
    ∃ r ∈ s.books, pyInt r.id = some b.id ∧ r.title = b.title ∧ r.author = b.author ∧
      r.year = b.year ∧ r.notes = b.notes ∧ r.cover = b.cover := by
  have hmem : b ∈ s.books.filterMap rowToBook :=
    (sortBy_perm _ (s.books.filterMap rowToBook)).mem_iff.mp hb
  obtain ⟨r, hr, hrb⟩ := List.mem_filterMap.mp hmem
  unfold rowToBook at hrb
  cases hp : pyInt r.id with
  | none => rw [hp] at hrb; cases hrb
  | some i =>
    rw [hp] at hrb
    have heq : Book.mk i r.title r.author r.year r.notes r.cover = b :=
      (Option.some.injEq _ _).mp hrb
    subst heq
    exact ⟨r, hr, hp, rfl, rfl, rfl, rfl, rfl⟩

lemma mem_list_wishlist_origin (s : CSVDataStore) (w : WishItem)
    (hw : w ∈ s.list_wishlist) :
    ∃ r ∈ s.wishlist, pyInt r.id = some w.id ∧ r.title = w.title ∧
      r.notes = w.notes ∧ r.cover = w.cover := by
  have hmem : w ∈ s.wishlist.filterMap rowToWish :=
    (sortBy_perm _ (s.wishlist.filterMap rowToWish)).mem_iff.mp hw
  obtain ⟨r, hr, hrw⟩ := List.mem_filterMap.mp hmem
  unfold rowToWish at hrw
  cases hp : pyInt r.id with
  | none => rw [hp] at hrw; cases hrw
  | some i =>
    rw [hp] at hrw
    have heq : WishItem.mk i r.title r.notes r.cover = w :=
      (Option.some.injEq _ _).mp hrw
    subst heq
    exact ⟨r, hr, hp, rfl, rfl, rfl⟩

/-! ## The claims -/

/-- C8: saving a settings object and loading it back preserves every
field (in particular `max_width = 500` survives), and an absent or
malformed settings file loads as exactly the built-in defaults. -/
theorem C8_settings_roundtrip :
    (∀ c : Config, load_config (save_config c) = c) ∧
      load_config ConfigFile.absent = defaultConfig ∧
      load_config ConfigFile.malformed = defaultConfig := by
  refine ⟨?x, rfl, rfl⟩
  intro c
  cases c
  rfl

/-- C7: the flat-file backend assigns one plus the maximum numeric id of
the existing rows, ignoring unparseable ids (`specMaxId` is the spec's
wording); the empty file yields id 1; the assigned id is strictly above
every parseable id already present (never reused); and the sequence
add, add, delete(first id), add assigns ids 1, 2, 3. -/
theorem C7_flat_file_id_allocation :
    (∀ ids : List String, CSVDataStore.next_id ids = specMaxId ids + 1) ∧
      CSVDataStore.next_id [] = 1 ∧
      (∀ (s : String) (l : List String), s ∈ l → ∀ v : Int, csvIdNum s = some v →
        v < CSVDataStore.next_id l) ∧
      ((CSVDataStore.add_book ⟨[], []⟩ "A" "" "" "").1 = 1 ∧
        ((CSVDataStore.add_book ⟨[], []⟩ "A" "" "" "").2.add_book "B" "" "" "").1 = 2 ∧
        (((((CSVDataStore.add_book ⟨[], []⟩ "A" "" "" "").2.add_book "B" "" "" "").2.delete_book
            [] 1).1).add_book "C" "" "" "").1 = 3) := by
  refine ⟨next_id_eq_specMaxId, rfl, ?x, by decide, by decide, by decide⟩
  intro s l hs v hv
  exact next_id_gt l s hs v hv

/-- Witness for C7 at a concrete store: id 7 is present, and the next
assigned id is strictly larger. -/
theorem C7_witness : (7 : Int) < CSVDataStore.next_id ["7"] :=
  C7_flat_file_id_allocation.2.2.1 "7" ["7"] (by decide) 7 (by decide)

/-- C2 fails on the code: `add_book("")` is not rejected — both backends
persist a row with an empty title (title validation lives only in the UI
dialog). -/
theorem C2_counterexample :
    (CSVDataStore.add_book ⟨[], []⟩ "" "" "" "").2.books ≠ [] ∧
      (DataStore.add_book ⟨[], []⟩ "" "" "" "").2.books ≠ [] := by
  exact ⟨by decide, by decide⟩

/-- C2 amended: neither backend validates the title.  `add_book` with
any title (empty included) appends exactly one row carrying the given
fields with the cover unset, leaves the wishlist untouched, and assigns
an id strictly greater than every (parseable) id already present. -/
theorem C2_amended_add_book_no_validation :
    (∀ (s : CSVDataStore) (t a y n : String),
      (s.add_book t a y n).2.books
          = s.books ++ [CsvBookRow.mk (pyStr ((s.add_book t a y n).1)) t a y n ""] ∧
        (s.add_book t a y n).2.wishlist = s.wishlist ∧
        ∀ r ∈ s.books, ∀ v : Int, csvIdNum r.id = some v → v < (s.add_book t a y n).1) ∧
    (∀ (st : DataStore) (t a y n : String),
      (st.add_book t a y n).2.books
          = st.books ++ [SBook.mk ((st.add_book t a y n).1) t a y n none] ∧
        (st.add_book t a y n).2.wishlist = st.wishlist ∧
        ∀ b ∈ st.books, b.id < (st.add_book t a y n).1) := by
  constructor
  · intro s t a y n
    refine ⟨rfl, rfl, ?hc⟩
    intro r hr v hv
    exact next_id_gt (s.books.map CsvBookRow.id) r.id
      (List.mem_map_of_mem CsvBookRow.id hr) v hv
  · intro st t a y n
    refine ⟨rfl, rfl, ?hs⟩
    intro b hb
    exact nextRowid_gt (st.books.map SBook.id) b.id (List.mem_map_of_mem SBook.id hb)

/-- Witness for C2 amended: adding an empty-titled book over a store
holding id 1 assigns an id above 1. -/
theorem C2_amended_witness :
    (1 : Int) < (CSVDataStore.add_book ⟨[⟨"1", "X", "", "", "", ""⟩], []⟩ "" "" "" "").1 :=
  (C2_amended_add_book_no_validation.1 ⟨[⟨"1", "X", "", "", "", ""⟩], []⟩ "" "" "" "").2.2
    ⟨"1", "X", "", "", "", ""⟩ (by decide) 1 (by decide)

/-- C6 fails on the code: the SQLite backend's `ORDER BY title` compares
bytes, so on titles `"a"`, `"B"` the output is not sorted
case-insensitively. -/
theorem C6_counterexample :
    sortedA ciTitleLe (stC6.list_books.map SBook.title) = false := by decide

/-- C6 amended: the flat-file backend returns the parseable rows sorted
case-insensitively by title; the database backend returns all rows
sorted case-sensitively (code-point order) by title. -/
theorem C6_amended_list_orders :
    (∀ s : CSVDataStore,
      sortedA ciTitleLe (s.list_books.map Book.title) = true ∧
        List.Perm s.list_books (s.books.filterMap rowToBook)) ∧
    (∀ st : DataStore,
      sortedA strLe (st.list_books.map SBook.title) = true ∧
        List.Perm st.list_books st.books) := by
  constructor
  · intro s
    constructor
    · rw [sortedA_map]
      exact sortedA_sortBy (fun a b => ciTitleLe a.title b.title)
        (fun (x y : Book) => ciTitleLe_total x.title y.title) _
    · exact sortBy_perm _ _
  · intro st
    constructor
    · rw [sortedA_map]
      exact sortedA_sortBy (fun a b => strLe a.title b.title)
        (fun (x y : SBook) => strLe_total x.title y.title) _
    · exact sortBy_perm _ _

/-- C10: the flat-file list operations silently skip exactly the rows
whose id does not parse as an integer: the output length counts only the
parseable rows, and every returned record originates (id and all fields)
from a parseable row.  Listing is read-only by construction and raises
nothing. -/
theorem C10_unparseable_rows_skipped :
    ∀ s : CSVDataStore,
      (s.list_books.length = (s.books.filter (fun r => (pyInt r.id).isSome)).length ∧
        ∀ b ∈ s.list_books, ∃ r ∈ s.books, pyInt r.id = some b.id ∧ r.title = b.title ∧
          r.author = b.author ∧ r.year = b.year ∧ r.notes = b.notes ∧ r.cover = b.cover) ∧
      (s.list_wishlist.length = (s.wishlist.filter (fun r => (pyInt r.id).isSome)).length ∧
        ∀ w ∈ s.list_wishlist, ∃ r ∈ s.wishlist, pyInt r.id = some w.id ∧
          r.title = w.title ∧ r.notes = w.notes ∧ r.cover = w.cover) := by
  intro s
  refine ⟨⟨?b1, fun b hb => mem_list_books_origin s b hb⟩,
    ⟨?w1, fun w hw => mem_list_wishlist_origin s w hw⟩⟩
  · unfold CSVDataStore.list_books
    rw [(sortBy_perm _ (s.books.filterMap rowToBook)).length_eq]
    rw [filterMap_length_filter rowToBook s.books]
    congr 1
    apply filter_congr_of
    intro r _
    unfold rowToBook
    cases pyInt r.id <;> rfl
  · unfold CSVDataStore.list_wishlist
    rw [(sortBy_perm _ (s.wishlist.filterMap rowToWish)).length_eq]
    rw [filterMap_length_filter rowToWish s.wishlist]
    congr 1
    apply filter_congr_of
    intro r _
    unfold rowToWish
    cases pyInt r.id <;> rfl

/-- Witness for C10: in a store with rows of ids "1" and "x", the listed
record of id 1 originates from the parseable row, and the unparseable
row is dropped (length 1 of 2). -/
theorem C10_witness :
    ∃ r ∈ sC10.books, pyInt r.id = some 1 ∧ r.title = "Good" ∧ r.author = "" ∧
      r.year = "" ∧ r.notes = "" ∧ r.cover = "" :=
  (C10_unparseable_rows_skipped sC10).1.2 ⟨1, "Good", "", "", "", ""⟩ (by decide)

/-- C9: deleting a record never touches asset files: the delete methods
of both backends perform no file operation (the file system passes
through unchanged) and remove only matching rows of their own table; in
particular a cover file just created by `set_book_cover` still exists
after the record is deleted. -/
theorem C9_delete_preserves_assets :
    (∀ (s : CSVDataStore) (fs : FileSys) (k : Int),
      (s.delete_book fs k).2 = fs ∧ (s.delete_wishlist fs k).2 = fs ∧
        (s.delete_book fs k).1.books = s.books.filter (fun r => !(r.id == pyStr k)) ∧
        (s.delete_book fs k).1.wishlist = s.wishlist ∧
        (s.delete_wishlist fs k).1.wishlist
            = s.wishlist.filter (fun r => !(r.id == pyStr k)) ∧
        (s.delete_wishlist fs k).1.books = s.books) ∧
    (∀ (st : DataStore) (fs : FileSys) (k : Int),
      (st.delete_book fs k).2 = fs ∧ (st.delete_wishlist fs k).2 = fs ∧
        (st.delete_book fs k).1.books = st.books.filter (fun b => !(b.id == k)) ∧
        (st.delete_book fs k).1.wishlist = st.wishlist ∧
        (st.delete_wishlist fs k).1.wishlist = st.wishlist.filter (fun w => !(w.id == k)) ∧
        (st.delete_wishlist fs k).1.books = st.books) ∧
    (∀ (s : CSVDataStore) (fs : FileSys) (bid : Int) (src : String) (bytes : List Nat)
        (p : CSVDataStore × FileSys) (k : Int),
      ¬src = "" → fsGet fs src = some bytes →
      ¬src = imagesDir ++ "/book_" ++ pyStr bid ++ pathSuffix src →
      s.set_book_cover fs bid src = some p →
      fsGet ((p.1.delete_book p.2 k).2)
          (imagesDir ++ "/book_" ++ pyStr bid ++ pathSuffix src) = some bytes) ∧
    (∀ (hasPil resize : Bool) (encode : List Nat → Option (List Nat)) (st : DataStore)
        (fs : FileSys) (bid : Int) (src : String) (st2 : DataStore) (fs2 : FileSys)
        (k : Int),
      ¬src = "" → ¬fsGet fs src = none →
      DataStore.set_book_cover hasPil resize encode st fs bid src = some (st2, fs2) →
      (fsGet ((st2.delete_book fs2 k).2)
          (imagesDir ++ "/book_" ++ pyStr bid ++ pathSuffix src)).isSome = true) := by
  refine ⟨fun s fs k => ⟨rfl, rfl, rfl, rfl, rfl, rfl⟩,
    fun st fs k => ⟨rfl, rfl, rfl, rfl, rfl, rfl⟩, ?hc, ?hs⟩
  · intro s fs bid src bytes p k hsrc hget hne hset
    rw [csv_set_book_cover_eq s fs bid src bytes hsrc hget hne] at hset
    have h2 : fsSet fs (imagesDir ++ "/book_" ++ pyStr bid ++ pathSuffix src) bytes
        = p.2 := congrArg Prod.snd ((Option.some.injEq _ _).mp hset)
    show fsGet p.2 (imagesDir ++ "/book_" ++ pyStr bid ++ pathSuffix src) = some bytes
    rw [← h2]
    exact fsGet_fsSet_self fs _ bytes
  · intro hasPil resize encode st fs bid src st2 fs2 k hsrc hex hset
    obtain ⟨v, hv⟩ :=
      sqlite_set_book_cover_creates hasPil resize encode st fs bid src st2 fs2 hsrc hset hex
    show (fsGet fs2 (imagesDir ++ "/book_" ++ pyStr bid ++ pathSuffix src)).isSome = true
    rw [hv, fsGet_fsSet_self]
    rfl

/-- Witness for C9: set a cover on a concrete store, then delete the
record; the created cover file is still readable. -/
theorem C9_witness :
    fsGet (((CSVDataStore.mk
          [CsvBookRow.mk "1" "B" "" "" "" (imagesDir ++ "/book_1.png")] []).delete_book
        (fsSet fsC9 (imagesDir ++ "/book_1.png") [5]) 1).2)
      (imagesDir ++ "/book_" ++ pyStr 1 ++ pathSuffix (homeDir ++ "/src.png")) = some [5] :=
  C9_delete_preserves_assets.2.2.1 sC9 fsC9 1 (homeDir ++ "/src.png") [5]
    (CSVDataStore.mk [CsvBookRow.mk "1" "B" "" "" "" (imagesDir ++ "/book_1.png")] [],
      fsSet fsC9 (imagesDir ++ "/book_1.png") [5]) 1
    (by decide) (by decide) (by decide) (by decide)

/-- The SQLite move on a present id: one INSERT carrying the cover path
over unchanged, one DELETE. -/
lemma sqlite_move_found (st : DataStore) (wi_id : Int) (author year : String)
    (w : SWish) (hfind : st.wishlist.find? (fun x => x.id == wi_id) = some w) :
    st.move_wishlist_to_books wi_id author year
      = (true,
          { st with
            books := st.books
              ++ [SBook.mk (nextRowid (st.books.map SBook.id)) w.title author year
                    w.notes w.cover],
            wishlist := st.wishlist.filter (fun x => !(x.id == wi_id)) }) := by
  rw [DataStore.move_wishlist_to_books.eq_def, hfind]

/-- The CSV move on a present id whose cover file exists and whose
book-named destination differs from the source: add the book row, copy
the cover bytes verbatim to the book-named file, point the new row at
it, and drop the wishlist row. -/
lemma csv_move_found (s : CSVDataStore) (fs : FileSys) (wi_id : Int)
    (author year : String) (m : CsvWishRow) (bytes : List Nat)
    (hfind : s.wishlist.find? (fun r => r.id == pyStr wi_id) = some m)
    (hcov : ¬m.cover = "")
    (hget : fsGet fs m.cover = some bytes)
    (hne : ¬m.cover = imagesDir ++ "/book_"
        ++ pyStr (CSVDataStore.next_id (s.books.map CsvBookRow.id))
        ++ pathSuffix m.cover) :
    s.move_wishlist_to_books fs wi_id author year
      = (true,
          CSVDataStore.mk
            (s.books
              ++ [CsvBookRow.mk
                    (pyStr (CSVDataStore.next_id (s.books.map CsvBookRow.id)))
                    m.title author year m.notes
                    (imagesDir ++ "/book_"
                      ++ pyStr (CSVDataStore.next_id (s.books.map CsvBookRow.id))
                      ++ pathSuffix m.cover)])
            (s.wishlist.filter (fun r => !(r.id == pyStr wi_id))),
          fsSet fs (imagesDir ++ "/book_"
            ++ pyStr (CSVDataStore.next_id (s.books.map CsvBookRow.id))
            ++ pathSuffix m.cover) bytes) := by
  rw [CSVDataStore.move_wishlist_to_books.eq_def, hfind]
  dsimp only
  rw [if_neg hcov, if_pos (by rw [hget]; rfl)]
  rw [show (s.add_book m.title author year m.notes).1
      = CSVDataStore.next_id (s.books.map CsvBookRow.id) from rfl]
  rw [csv_set_book_cover_eq (s.add_book m.title author year m.notes).2 fs
    (CSVDataStore.next_id (s.books.map CsvBookRow.id)) m.cover bytes hcov hget hne]
  dsimp only
  have hfresh : ∀ r ∈ s.books,
      ¬(r.id = pyStr (CSVDataStore.next_id (s.books.map CsvBookRow.id))) := by
    intro r hr
    exact next_id_fresh (s.books.map CsvBookRow.id) r.id
      (List.mem_map_of_mem CsvBookRow.id hr)
  have hbooks : ((s.add_book m.title author year m.notes).2.books.map fun r =>
      if r.id == pyStr (CSVDataStore.next_id (s.books.map CsvBookRow.id)) then
        { r with cover := imagesDir ++ "/book_"
            ++ pyStr (CSVDataStore.next_id (s.books.map CsvBookRow.id))
            ++ pathSuffix m.cover }
      else r)
      = s.books
        ++ [CsvBookRow.mk
              (pyStr (CSVDataStore.next_id (s.books.map CsvBookRow.id)))
              m.title author year m.notes
              (imagesDir ++ "/book_"
                ++ pyStr (CSVDataStore.next_id (s.books.map CsvBookRow.id))
                ++ pathSuffix m.cover)] := by
    show (s.books
        ++ [CsvBookRow.mk (pyStr (CSVDataStore.next_id (s.books.map CsvBookRow.id)))
              m.title author year m.notes ""]).map _
        = _
    rw [List.map_append, map_cover_update_fresh s.books _ _ hfresh, List.map_cons]
    have hself : ((CsvBookRow.mk
        (pyStr (CSVDataStore.next_id (s.books.map CsvBookRow.id)))
        m.title author year m.notes "").id
          == pyStr (CSVDataStore.next_id (s.books.map CsvBookRow.id))) = true := by
      exact beq_self_eq_true _
    rw [List.map_nil]
    simp only [hself, if_pos]
  rw [hbooks]
  rfl

/-- A successful CSV cover set only rewrites the books table: matching
rows point at the book-named destination, the wishlist is untouched. -/
lemma csv_set_book_cover_shape (s : CSVDataStore) (fs : FileSys) (bid : Int)
    (src : String) (p : CSVDataStore × FileSys)
    (hsrc : ¬src = "")
    (hex : (fsGet fs src).isSome = true)
    (h : s.set_book_cover fs bid src = some p) :
    p.1.books
        = (s.books.map fun r =>
            if r.id == pyStr bid then
              { r with cover := imagesDir ++ "/book_" ++ pyStr bid ++ pathSuffix src }
            else r) ∧
      p.1.wishlist = s.wishlist := by
  unfold CSVDataStore.set_book_cover at h
  rw [if_neg hsrc] at h
  have hn : (fsGet fs src).isNone = false := by
    cases hv : fsGet fs src with
    | none => rw [hv] at hex; cases hex
    | some b => rfl
  rw [if_neg (by rw [hn]; exact Bool.false_ne_true)] at h
  dsimp only at h
  cases hcp : shutilCopy fs src (imagesDir ++ "/book_" ++ pyStr bid ++ pathSuffix src) with
  | none => rw [hcp] at h; cases h
  | some fs2 =>
    rw [hcp] at h
    have hp := (Option.some.injEq _ _).mp h
    rw [← hp]
    exact ⟨rfl, rfl⟩

/-- Appending the fresh row and then updating covers of the fresh id
rewrites exactly the new row. -/
lemma add_book_map_cover_update (s : CSVDataStore) (t a y n dest : String) :
    ((s.add_book t a y n).2.books.map fun r =>
        if r.id == pyStr (CSVDataStore.next_id (s.books.map CsvBookRow.id)) then
          { r with cover := dest }
        else r)
      = s.books ++ [CsvBookRow.mk
          (pyStr (CSVDataStore.next_id (s.books.map CsvBookRow.id))) t a y n dest] := by
  have hfresh : ∀ r ∈ s.books,
      ¬(r.id = pyStr (CSVDataStore.next_id (s.books.map CsvBookRow.id))) := by
    intro r hr
    exact next_id_fresh (s.books.map CsvBookRow.id) r.id
      (List.mem_map_of_mem CsvBookRow.id hr)
  show (s.books ++ [CsvBookRow.mk
      (pyStr (CSVDataStore.next_id (s.books.map CsvBookRow.id))) t a y n ""]).map _ = _
  rw [List.map_append, map_cover_update_fresh s.books _ _ hfresh, List.map_cons,
    List.map_nil]
  have hself : ((CsvBookRow.mk
      (pyStr (CSVDataStore.next_id (s.books.map CsvBookRow.id))) t a y n "").id
        == pyStr (CSVDataStore.next_id (s.books.map CsvBookRow.id))) = true :=
    beq_self_eq_true _
  simp only [hself, if_pos]

/-- CSV move of a present id whose item has no cover: the new book keeps
an empty cover and no file is touched. -/
lemma csv_move_nocover (s : CSVDataStore) (fs : FileSys) (wi_id : Int)
    (author year : String) (m : CsvWishRow)
    (hfind : s.wishlist.find? (fun r => r.id == pyStr wi_id) = some m)
    (hc : m.cover = "") :
    s.move_wishlist_to_books fs wi_id author year
      = (true,
          CSVDataStore.mk
            (s.books ++ [CsvBookRow.mk
              (pyStr (CSVDataStore.next_id (s.books.map CsvBookRow.id)))
              m.title author year m.notes ""])
            (s.wishlist.filter (fun r => !(r.id == pyStr wi_id))),
          fs) := by
  rw [CSVDataStore.move_wishlist_to_books.eq_def, hfind]
  dsimp only
  rw [if_pos hc]
  rfl

/-- CSV move of a present id whose cover path is stale (no such file):
the copy is skipped, the new book keeps an empty cover, no file is
touched. -/
lemma csv_move_stalecover (s : CSVDataStore) (fs : FileSys) (wi_id : Int)
    (author year : String) (m : CsvWishRow)
    (hfind : s.wishlist.find? (fun r => r.id == pyStr wi_id) = some m)
    (hc : ¬m.cover = "")
    (hg : fsGet fs m.cover = none) :
    s.move_wishlist_to_books fs wi_id author year
      = (true,
          CSVDataStore.mk
            (s.books ++ [CsvBookRow.mk
              (pyStr (CSVDataStore.next_id (s.books.map CsvBookRow.id)))
              m.title author year m.notes ""])
            (s.wishlist.filter (fun r => !(r.id == pyStr wi_id))),
          fs) := by
  rw [CSVDataStore.move_wishlist_to_books.eq_def, hfind]
  dsimp only
  rw [if_neg hc, if_neg (by rw [hg]; exact Bool.false_ne_true)]
  rfl

/-- CSV move of a present id whose cover file exists: whatever the cover
copy does (it may also hit the self-copy exception, which is swallowed),
the move returns true, appends exactly one row carrying title and notes,
and drops the wishlist row. -/
lemma csv_move_cover_exists (s : CSVDataStore) (fs : FileSys) (wi_id : Int)
    (author year : String) (m : CsvWishRow)
    (hfind : s.wishlist.find? (fun r => r.id == pyStr wi_id) = some m)
    (hc : ¬m.cover = "")
    (hex : (fsGet fs m.cover).isSome = true) :
    ∃ (c : String) (fs2 : FileSys),
      s.move_wishlist_to_books fs wi_id author year
        = (true,
            CSVDataStore.mk
              (s.books ++ [CsvBookRow.mk
                (pyStr (CSVDataStore.next_id (s.books.map CsvBookRow.id)))
                m.title author year m.notes c])
              (s.wishlist.filter (fun r => !(r.id == pyStr wi_id))),
            fs2) := by
  rw [CSVDataStore.move_wishlist_to_books.eq_def, hfind]
  dsimp only
  rw [if_neg hc, if_pos hex]
  rw [show (s.add_book m.title author year m.notes).1
      = CSVDataStore.next_id (s.books.map CsvBookRow.id) from rfl]
  cases hset : (s.add_book m.title author year m.notes).2.set_book_cover fs
      (CSVDataStore.next_id (s.books.map CsvBookRow.id)) m.cover with
  | none => exact ⟨"", fs, rfl⟩
  | some p =>
    obtain ⟨hb, hw⟩ := csv_set_book_cover_shape
      (s.add_book m.title author year m.notes).2 fs
      (CSVDataStore.next_id (s.books.map CsvBookRow.id)) m.cover p hc hex hset
    refine ⟨imagesDir ++ "/book_"
        ++ pyStr (CSVDataStore.next_id (s.books.map CsvBookRow.id))
        ++ pathSuffix m.cover, p.2, ?x⟩
    have hb2 : p.1.books
        = s.books ++ [CsvBookRow.mk
            (pyStr (CSVDataStore.next_id (s.books.map CsvBookRow.id)))
            m.title author year m.notes
            (imagesDir ++ "/book_"
              ++ pyStr (CSVDataStore.next_id (s.books.map CsvBookRow.id))
              ++ pathSuffix m.cover)] := by
      rw [hb]
      exact add_book_map_cover_update s m.title author year m.notes _
    have hw2 : p.1.wishlist = s.wishlist := hw
    rw [hb2, hw2]

/-- C5 fails on the code: in the SQLite backend `move_wishlist_to_books`
creates no new cover file at all — the new book record reuses the
wishlist item's cover path unchanged instead of a book-named copy. -/
theorem C5_counterexample :
    (stC5.move_wishlist_to_books 1 "" "").2.books.map SBook.cover
        = [some (imagesDir ++ "/wish_1.png")] ∧
      ¬(imagesDir ++ "/wish_1.png" = imagesDir ++ "/book_1.png") := by
  exact ⟨by decide, by decide⟩

/-- C5 amended: moving a present wishlist id succeeds in both backends,
removes the wishlist record and appends exactly one book with the
original title and notes — unconditionally, also for flat-file items
whose cover is empty or stale (then the new book's cover stays empty and
no file is touched).  When the flat-file item's cover is non-empty, its
file exists, and the book-named destination differs from the source, the
cover asset is copied byte-identically to the new book-named file and
the new book points at it.  The database backend never copies: it stores
the wishlist item's existing cover path on the new book without any
file operation. -/
theorem C5_amended_move_semantics :
    (∀ (st : DataStore) (wi_id : Int) (author year : String) (w : SWish),
      st.wishlist.find? (fun x => x.id == wi_id) = some w →
      (st.move_wishlist_to_books wi_id author year).1 = true ∧
        (st.move_wishlist_to_books wi_id author year).2.books
            = st.books ++ [SBook.mk (nextRowid (st.books.map SBook.id))
                w.title author year w.notes w.cover] ∧
        (∀ x ∈ (st.move_wishlist_to_books wi_id author year).2.wishlist, ¬(x.id = wi_id)) ∧
        (∀ x ∈ st.wishlist, ¬(x.id = wi_id) →
          x ∈ (st.move_wishlist_to_books wi_id author year).2.wishlist)) ∧
    (∀ (s : CSVDataStore) (fs : FileSys) (wi_id : Int) (author year : String)
        (m : CsvWishRow),
      s.wishlist.find? (fun r => r.id == pyStr wi_id) = some m →
      (s.move_wishlist_to_books fs wi_id author year).1 = true ∧
        (∃ c : String, (s.move_wishlist_to_books fs wi_id author year).2.1.books
            = s.books ++ [CsvBookRow.mk
                (pyStr (CSVDataStore.next_id (s.books.map CsvBookRow.id)))
                m.title author year m.notes c]) ∧
        (s.move_wishlist_to_books fs wi_id author year).2.1.wishlist
            = s.wishlist.filter (fun r => !(r.id == pyStr wi_id)) ∧
        (∀ x ∈ (s.move_wishlist_to_books fs wi_id author year).2.1.wishlist,
          ¬(x.id = pyStr wi_id)) ∧
        (m.cover = "" →
          (s.move_wishlist_to_books fs wi_id author year).2.1.books
              = s.books ++ [CsvBookRow.mk
                  (pyStr (CSVDataStore.next_id (s.books.map CsvBookRow.id)))
                  m.title author year m.notes ""] ∧
            (s.move_wishlist_to_books fs wi_id author year).2.2 = fs) ∧
        (¬m.cover = "" → fsGet fs m.cover = none →
          (s.move_wishlist_to_books fs wi_id author year).2.1.books
              = s.books ++ [CsvBookRow.mk
                  (pyStr (CSVDataStore.next_id (s.books.map CsvBookRow.id)))
                  m.title author year m.notes ""] ∧
            (s.move_wishlist_to_books fs wi_id author year).2.2 = fs)) ∧
    (∀ (s : CSVDataStore) (fs : FileSys) (wi_id : Int) (author year : String)
        (m : CsvWishRow) (bytes : List Nat),
      s.wishlist.find? (fun r => r.id == pyStr wi_id) = some m →
      ¬m.cover = "" →
      fsGet fs m.cover = some bytes →
      ¬m.cover = imagesDir ++ "/book_"
          ++ pyStr (CSVDataStore.next_id (s.books.map CsvBookRow.id))
          ++ pathSuffix m.cover →
      (s.move_wishlist_to_books fs wi_id author year).1 = true ∧
        (s.move_wishlist_to_books fs wi_id author year).2.1.books
            = s.books ++ [CsvBookRow.mk
                (pyStr (CSVDataStore.next_id (s.books.map CsvBookRow.id)))
                m.title author year m.notes
                (imagesDir ++ "/book_"
                  ++ pyStr (CSVDataStore.next_id (s.books.map CsvBookRow.id))
                  ++ pathSuffix m.cover)] ∧
        fsGet (s.move_wishlist_to_books fs wi_id author year).2.2
            (imagesDir ++ "/book_"
              ++ pyStr (CSVDataStore.next_id (s.books.map CsvBookRow.id))
              ++ pathSuffix m.cover) = some bytes ∧
        fsGet (s.move_wishlist_to_books fs wi_id author year).2.2 m.cover = some bytes ∧
        (∀ x ∈ (s.move_wishlist_to_books fs wi_id author year).2.1.wishlist,
          ¬(x.id = pyStr wi_id))) := by
  refine ⟨?sq, ?gen, ?cov⟩
  · intro st wi_id author year w hfind
    rw [sqlite_move_found st wi_id author year w hfind]
    refine ⟨rfl, rfl, ?h1, ?h2⟩
    · intro x hx
      exact mem_filter_not_id_sql st.wishlist wi_id x hx
    · intro x hx hne
      exact mem_filter_keep_sql st.wishlist wi_id x hx hne
  · intro s fs wi_id author year m hfind
    by_cases hc : m.cover = ""
    · rw [csv_move_nocover s fs wi_id author year m hfind hc]
      refine ⟨rfl, ⟨"", rfl⟩, rfl, ?g1, fun _ => ⟨rfl, rfl⟩, fun hx _ => absurd hc hx⟩
      intro x hx
      exact mem_filter_not_id_csv s.wishlist (pyStr wi_id) x hx
    · by_cases hg : fsGet fs m.cover = none
      · rw [csv_move_stalecover s fs wi_id author year m hfind hc hg]
        refine ⟨rfl, ⟨"", rfl⟩, rfl, ?g2, fun hx => absurd hx hc, fun _ _ => ⟨rfl, rfl⟩⟩
        intro x hx
        exact mem_filter_not_id_csv s.wishlist (pyStr wi_id) x hx
      · have hex : (fsGet fs m.cover).isSome = true := by
          cases hv : fsGet fs m.cover with
          | none => exact absurd hv hg
          | some b => rfl
        obtain ⟨c, fs2, hmv⟩ := csv_move_cover_exists s fs wi_id author year m hfind hc hex
        rw [hmv]
        refine ⟨rfl, ⟨c, rfl⟩, rfl, ?g3, fun hx => absurd hx hc, fun _ hgg => absurd hgg hg⟩
        intro x hx
        exact mem_filter_not_id_csv s.wishlist (pyStr wi_id) x hx
  · intro s fs wi_id author year m bytes hfind hcov hget hne
    rw [csv_move_found s fs wi_id author year m bytes hfind hcov hget hne]
    refine ⟨rfl, rfl, ?h3, ?h4, ?h5⟩
    · exact fsGet_fsSet_self fs _ bytes
    · rw [fsGet_fsSet_ne fs _ m.cover bytes hne]
      exact hget
    · intro x hx
      exact mem_filter_not_id_csv s.wishlist (pyStr wi_id) x hx

/-- Witness for C5: moving the covered wishlist item of a concrete CSV
store copies its cover to the book-named file and records it on the new
book row. -/
theorem C5_amended_witness :
    (csvC5.move_wishlist_to_books fsC5 1 "A" "Y").2.1.books
      = csvC5.books ++ [CsvBookRow.mk
          (pyStr (CSVDataStore.next_id (csvC5.books.map CsvBookRow.id)))
          "T" "A" "Y" "N"
          (imagesDir ++ "/book_"
            ++ pyStr (CSVDataStore.next_id (csvC5.books.map CsvBookRow.id))
            ++ pathSuffix (imagesDir ++ "/wish_1.png"))] :=
  (C5_amended_move_semantics.2.2 csvC5 fsC5 1 "A" "Y"
    ⟨"1", "T", "N", imagesDir ++ "/wish_1.png"⟩ [7]
    (by decide) (by decide) (by decide) (by decide)).2.1

/-- C3 (code bug): migrating SQLite → CSV re-creates a covered wishlist
item, but the wishlist branch of the routine calls the *book* cover
setter of the destination backend (`csvs.set_book_cover`): the asset is
materialized under the book naming convention (`book_1.png`), there is
no book row to attach it to, and the migrated wishlist record's cover
stays empty. -/
theorem C3_bug_eval :
    (migrate_sqlite_to_csv dbC3 ⟨[], []⟩ fsC3).1.wishlist.map CsvWishRow.cover = [""] ∧
      (migrate_sqlite_to_csv dbC3 ⟨[], []⟩ fsC3).1.books = [] ∧
      fsGet (migrate_sqlite_to_csv dbC3 ⟨[], []⟩ fsC3).2 (imagesDir ++ "/book_1.png")
        = some [9] := by
  exact ⟨by decide, by decide, by decide⟩

/-- C4 (code bug): both backends share the images directory and the
`book_{id}` naming, so CSV → SQLite migration can overwrite a source
cover asset in place: in `csvC4` the cover file of book id 1 holds `[1]`
before migration and `[2]` (the bytes of the other book's cover)
afterwards, because the book listed first is assigned SQLite id 1 and
its cover is re-materialized onto `book_1.png`. -/
theorem C4_bug_eval :
    fsGet fsC4 (imagesDir ++ "/book_1.png") = some [1] ∧
      fsGet (migrate_csv_to_sqlite false true (fun _ => none) csvC4 ⟨[], []⟩ fsC4).2
          (imagesDir ++ "/book_1.png") = some [2] := by
  exact ⟨by decide, by decide⟩

/-- C1 fails on the code: the flat-file backend does not provide the full
contract (it has no `set_wishlist_cover`, `export_all` or `import_all`
method), and even a shared operation differs in semantics: on
corresponding stores holding titles `"a"` and `"B"` the two `list_books`
return different orders. -/
theorem C1_counterexample :
    ("set_wishlist_cover" ∈ DataStore.ops ∧ ¬("set_wishlist_cover" ∈ CSVDataStore.ops)
        ∧ "export_all" ∈ DataStore.ops ∧ ¬("export_all" ∈ CSVDataStore.ops)
        ∧ "import_all" ∈ DataStore.ops ∧ ¬("import_all" ∈ CSVDataStore.ops)) ∧
      Corresp ⟨[⟨"1", "a", "", "", "", ""⟩, ⟨"2", "B", "", "", "", ""⟩], []⟩ stC6 ∧
      ¬((CSVDataStore.list_books
            ⟨[⟨"1", "a", "", "", "", ""⟩, ⟨"2", "B", "", "", "", ""⟩], []⟩).map Book.title
          = (DataStore.list_books stC6).map SBook.title) := by
  exact ⟨by decide, by decide, by decide⟩

/-- C1 amended: every operation of the flat-file backend also exists on
the database backend, but not conversely (`set_wishlist_cover`,
`export_all`, `import_all` are missing from the flat-file backend).  On
corresponding stores the shared record operations agree on record-set
changes: the adds assign equal ids and create corresponding rows, the
deletes remove corresponding rows, and the list operations return the
same records up to order (the orders themselves differ, see C6). -/
theorem C1_amended_backend_correspondence :
    ((∀ op ∈ CSVDataStore.ops, op ∈ DataStore.ops)
        ∧ ¬("set_wishlist_cover" ∈ CSVDataStore.ops)
        ∧ ¬("export_all" ∈ CSVDataStore.ops)
        ∧ ¬("import_all" ∈ CSVDataStore.ops)) ∧
    (∀ (s : CSVDataStore) (st : DataStore) (t a y n : String), Corresp s st →
      (s.add_book t a y n).1 = (st.add_book t a y n).1 ∧
        Corresp (s.add_book t a y n).2 (st.add_book t a y n).2) ∧
    (∀ (s : CSVDataStore) (st : DataStore) (t n : String), Corresp s st →
      (s.add_wishlist t n).1 = (st.add_wishlist t n).1 ∧
        Corresp (s.add_wishlist t n).2 (st.add_wishlist t n).2) ∧
    (∀ (s : CSVDataStore) (st : DataStore) (fs : FileSys) (k : Int), Corresp s st →
      Corresp (s.delete_book fs k).1 (st.delete_book fs k).1) ∧
    (∀ (s : CSVDataStore) (st : DataStore) (fs : FileSys) (k : Int), Corresp s st →
      Corresp (s.delete_wishlist fs k).1 (st.delete_wishlist fs k).1) ∧
    (∀ (s : CSVDataStore) (st : DataStore), Corresp s st →
      List.Perm s.list_books (st.list_books.map recOfSBook)) ∧
    (∀ (s : CSVDataStore) (st : DataStore), Corresp s st →
      List.Perm s.list_wishlist (st.list_wishlist.map recOfSWish)) := by
  refine ⟨⟨by decide, by decide, by decide, by decide⟩, ?a1, ?a2, ?a3, ?a4, ?a5, ?a6⟩
  · intro s st t a y n h
    exact corresp_add_book s st t a y n h
  · intro s st t n h
    exact corresp_add_wishlist s st t n h
  · intro s st fs k h
    exact corresp_delete_book s st fs k h
  · intro s st fs k h
    exact corresp_delete_wishlist s st fs k h
  · intro s st h
    exact corresp_list_books s st h
  · intro s st h
    exact corresp_list_wishlist s st h

/-- Witness for C1 amended: a concrete pair of corresponding stores, on
which the two book lists are permutations of each other. -/
theorem C1_amended_witness :
    Corresp csvW dbW ∧ List.Perm csvW.list_books (dbW.list_books.map recOfSBook) :=
  ⟨by decide, C1_amended_backend_correspondence.2.2.2.2.2.1 csvW dbW (by decide)⟩
